import Mathlib

/-!
Verification of the `the-drill` media-metadata dissector.

The Rust sources are shallowly embedded: buffers and byte slices become
`List Nat` (each element a byte value `< 256`), Rust `String` values become
`List Nat` of Unicode code points, machine integers become `Nat`/`Int` with
explicit bounds where overflow matters, and fallible functions return
`Except String`.  Definition names follow the Rust names.
-/

namespace TheDrill

/-- Byte at index `i` of a buffer; `0` when out of range.  The embedding only
reads positions that the mirrored bounds checks have validated. -/
def byteAt (l : List Nat) (i : Nat) : Nat := l.getD i 0

/-- The sub-buffer `l[a..b]` (empty when the range is empty). -/
def slice (l : List Nat) (a b : Nat) : List Nat := (l.drop a).take (b - a)

/-- `u16::from_be_bytes` on two byte values. -/
def be16 (b0 b1 : Nat) : Nat := b0 * 256 + b1

/-- `u32::from_be_bytes` on four byte values. -/
def be32 (b0 b1 b2 b3 : Nat) : Nat := ((b0 * 256 + b1) * 256 + b2) * 256 + b3

/-- `u64::from_be_bytes` on eight byte values. -/
def be64 (b0 b1 b2 b3 b4 b5 b6 b7 : Nat) : Nat :=
  be32 b0 b1 b2 b3 * 4294967296 + be32 b4 b5 b6 b7

/-- Big-endian `u32` read at offset `i` of a buffer. -/
def be32At (l : List Nat) (i : Nat) : Nat :=
  be32 (byteAt l i) (byteAt l (i + 1)) (byteAt l (i + 2)) (byteAt l (i + 3))

/-- Big-endian `u16` read at offset `i` of a buffer. -/
def be16At (l : List Nat) (i : Nat) : Nat :=
  be16 (byteAt l i) (byteAt l (i + 1))

/-- Big-endian `u64` read at offset `i` of a buffer. -/
def be64At (l : List Nat) (i : Nat) : Nat :=
  be32At l i * 4294967296 + be32At l (i + 4)

/-- `id3v2/tools.rs`: `decode_synchsafe_int` — decode a synchsafe integer
(7 bits per byte); buffers shorter than 4 bytes decode to `0`. -/
def decode_synchsafe_int (bytes : List Nat) : Nat :=
  if 4 ≤ bytes.length then
    ((byteAt bytes 0 &&& 0x7F) <<< 21) ||| ((byteAt bytes 1 &&& 0x7F) <<< 14) |||
      ((byteAt bytes 2 &&& 0x7F) <<< 7) ||| (byteAt bytes 3 &&& 0x7F)
  else
    0

/-- `id3v2/tools.rs`: `remove_unsynchronization` — push each byte and, when a
`0xFF` is followed by `0x00`, skip the `0x00`. -/
def remove_unsynchronization : List Nat → List Nat
  | [] => []
  | [b] => [b]
  | b :: c :: rest =>
    if b = 0xFF ∧ c = 0x00 then b :: remove_unsynchronization rest
    else b :: remove_unsynchronization (c :: rest)

theorem remove_unsynchronization_length :
    ∀ l : List Nat, (remove_unsynchronization l).length ≤ l.length
  | [] => by simp [remove_unsynchronization]
  | [b] => by simp [remove_unsynchronization]
  | b :: c :: rest => by
    by_cases h : b = 0xFF ∧ c = 0x00
    · have ih := remove_unsynchronization_length rest
      simp only [remove_unsynchronization, if_pos h, List.length_cons]
      omega
    · have ih := remove_unsynchronization_length (c :: rest)
      simp only [remove_unsynchronization, if_neg h, List.length_cons] at ih ⊢
      omega

private lemma and_0x7F_eq_of_lt {b : Nat} (h : b < 0x80) : b &&& 0x7F = b := by
  have := Nat.and_pow_two_sub_one_of_lt_two_pow (n := 7) (x := b) (by omega)
  simpa using this

private lemma and_0x7F_lt (b : Nat) : b &&& 0x7F < 2 ^ 7 := by
  have h : b &&& 0x7F ≤ 0x7F := Nat.and_le_right
  omega

/-- C1: on a 4-byte sequence whose bytes are all `< 0x80`, the masks in
`decode_synchsafe_int` are the identity, so the decoder returns exactly
`b0<<21 | b1<<14 | b2<<7 | b3`. -/
theorem decode_synchsafe_int_low7 (b0 b1 b2 b3 : Nat)
    (h0 : b0 < 0x80) (h1 : b1 < 0x80) (h2 : b2 < 0x80) (h3 : b3 < 0x80) :
    decode_synchsafe_int [b0, b1, b2, b3] =
      (b0 <<< 21) ||| (b1 <<< 14) ||| (b2 <<< 7) ||| b3 := by
  simp [decode_synchsafe_int, byteAt,
    and_0x7F_eq_of_lt h0, and_0x7F_eq_of_lt h1, and_0x7F_eq_of_lt h2, and_0x7F_eq_of_lt h3]

/-- Witness for C1 at a concrete input. -/
theorem decode_synchsafe_int_low7_witness :
    decode_synchsafe_int [0x01, 0x7F, 0x00, 0x23] =
      (0x01 <<< 21) ||| (0x7F <<< 14) ||| (0x00 <<< 7) ||| 0x23 :=
  decode_synchsafe_int_low7 0x01 0x7F 0x00 0x23
    (by decide) (by decide) (by decide) (by decide)

/-- C10: `decode_synchsafe_int` returns `0` on every buffer shorter than 4
bytes, always returns a value `< 2^28`, and on longer buffers depends only on
the low 7 bits of the first four bytes. -/
theorem decode_synchsafe_int_short_and_bounded
    (b0 b1 b2 b3 : Nat) (rest bytes : List Nat) :
    decode_synchsafe_int [] = 0 ∧
    decode_synchsafe_int [b0] = 0 ∧
    decode_synchsafe_int [b0, b1] = 0 ∧
    decode_synchsafe_int [b0, b1, b2] = 0 ∧
    decode_synchsafe_int bytes < 2 ^ 28 ∧
    decode_synchsafe_int (b0 :: b1 :: b2 :: b3 :: rest) =
      ((b0 &&& 0x7F) <<< 21) ||| ((b1 &&& 0x7F) <<< 14) |||
        ((b2 &&& 0x7F) <<< 7) ||| (b3 &&& 0x7F) := by
  refine ⟨by simp [decode_synchsafe_int], by simp [decode_synchsafe_int],
    by simp [decode_synchsafe_int], by simp [decode_synchsafe_int], ?_, ?_⟩
  · unfold decode_synchsafe_int
    split
    · have hs : ∀ x k : Nat, x < 2 ^ 7 → k ≤ 21 → x <<< k < 2 ^ 28 := by
        intro x k hx hk
        rw [Nat.shiftLeft_eq]
        calc x * 2 ^ k < 2 ^ 7 * 2 ^ k :=
              Nat.mul_lt_mul_of_lt_of_le hx (Nat.le_refl _) (Nat.pos_pow_of_pos k (by omega))
          _ = 2 ^ (7 + k) := by rw [pow_add]
          _ ≤ 2 ^ 28 := Nat.pow_le_pow_right (by omega) (by omega)
      refine Nat.or_lt_two_pow (Nat.or_lt_two_pow (Nat.or_lt_two_pow ?_ ?_) ?_) ?_
      · exact hs _ _ (and_0x7F_lt _) (by omega)
      · exact hs _ _ (and_0x7F_lt _) (by omega)
      · exact hs _ _ (and_0x7F_lt _) (by omega)
      · have := and_0x7F_lt (byteAt bytes 3)
        calc byteAt bytes 3 &&& 0x7F < 2 ^ 7 := this
          _ ≤ 2 ^ 28 := Nat.pow_le_pow_right (by omega) (by omega)
    · omega
  · simp [decode_synchsafe_int, byteAt]

/-- C2 counterexample: one pass over `FF 00 00` leaves the pair `FF 00` in the
output, and a second pass removes it, so `remove_unsynchronization` is not
idempotent. -/
theorem remove_unsynchronization_not_idempotent :
    remove_unsynchronization [0xFF, 0x00, 0x00] = [0xFF, 0x00] ∧
    remove_unsynchronization (remove_unsynchronization [0xFF, 0x00, 0x00]) = [0xFF] := by
  constructor <;> rfl

/-- C2 (amended): `remove_unsynchronization` never lengthens its input.  (The
idempotence half of the claim is refuted by
`remove_unsynchronization_not_idempotent`.) -/
theorem remove_unsynchronization_length_nonincreasing (l : List Nat) :
    (remove_unsynchronization l).length ≤ l.length :=
  remove_unsynchronization_length l

/-! ### Text-encoding subsystem (`id3v2/text_encoding.rs`)

Rust `String` values are embedded as `List Nat` of Unicode code points.
`String::from_utf8_lossy` and `String::from_utf16` are modelled by
`utf8_lossy` and `utf16_decode_units` below, following the Rust standard
library's documented behaviour (maximal-subpart U+FFFD substitution for
UTF-8, surrogate-pair validation for UTF-16). -/

/-- ASCII byte values of a Lean string literal, used to embed the Rust
string constants the source compares against. -/
def ascii (s : String) : List Nat := s.toList.map Char.toNat

/-- `TextEncoding`: the four ID3v2 text encodings, byte values 0–3. -/
inductive TextEncoding where
  | iso88591
  | utf16Bom
  | utf16Be
  | utf8
deriving DecidableEq

/-- `TextEncoding::from_byte`. -/
def TextEncoding.from_byte (b : Nat) : Except String TextEncoding :=
  match b with
  | 0 => .ok .iso88591
  | 1 => .ok .utf16Bom
  | 2 => .ok .utf16Be
  | 3 => .ok .utf8
  | _ => .error "Unknown text encoding"

/-- `TextEncoding::is_valid_for_version`: UTF-16BE and UTF-8 require
`version_major >= 4`. -/
def TextEncoding.is_valid_for_version : TextEncoding → Nat → Bool
  | .iso88591, _ => true
  | .utf16Bom, _ => true
  | .utf16Be, v => 4 ≤ v
  | .utf8, v => 4 ≤ v

/-- `get_terminator_length`. -/
def get_terminator_length : TextEncoding → Nat
  | .iso88591 => 1
  | .utf8 => 1
  | .utf16Bom => 2
  | .utf16Be => 2

theorem get_terminator_length_pos (e : TextEncoding) : 1 ≤ get_terminator_length e := by
  cases e <;> simp [get_terminator_length]

/-- `is_null_terminator`. -/
def is_null_terminator (bytes : List Nat) (e : TextEncoding) : Bool :=
  match e with
  | .iso88591 | .utf8 => ¬ bytes.isEmpty ∧ byteAt bytes 0 = 0
  | .utf16Bom | .utf16Be => 2 ≤ bytes.length ∧ byteAt bytes 0 = 0 ∧ byteAt bytes 1 = 0

/-- `decode_iso88591_string`: each byte maps to the code point of the same
value. -/
def decode_iso88591_string (data : List Nat) : List Nat := data

/-- The replacement character U+FFFD emitted by lossy decoding. -/
def replacementChar : Nat := 0xFFFD

/-- `String::from_utf8_lossy` (Rust standard library): decode UTF-8,
substituting U+FFFD for each maximal invalid subpart. -/
def utf8_lossy : List Nat → List Nat
  | [] => []
  | f :: rest =>
    if f < 0x80 then f :: utf8_lossy rest
    else if 0xC2 ≤ f ∧ f ≤ 0xDF then
      match rest with
      | c1 :: rest2 =>
        if 0x80 ≤ c1 ∧ c1 ≤ 0xBF then
          ((f - 0xC0) * 64 + (c1 - 0x80)) :: utf8_lossy rest2
        else replacementChar :: utf8_lossy (c1 :: rest2)
      | [] => [replacementChar]
    else if 0xE0 ≤ f ∧ f ≤ 0xEF then
      match rest with
      | c1 :: rest2 =>
        if (if f = 0xE0 then 0xA0 else 0x80) ≤ c1 ∧ c1 ≤ (if f = 0xED then 0x9F else 0xBF) then
          match rest2 with
          | c2 :: rest3 =>
            if 0x80 ≤ c2 ∧ c2 ≤ 0xBF then
              ((f - 0xE0) * 4096 + (c1 - 0x80) * 64 + (c2 - 0x80)) :: utf8_lossy rest3
            else replacementChar :: utf8_lossy (c2 :: rest3)
          | [] => [replacementChar]
        else replacementChar :: utf8_lossy (c1 :: rest2)
      | [] => [replacementChar]
    else if 0xF0 ≤ f ∧ f ≤ 0xF4 then
      match rest with
      | c1 :: rest2 =>
        if (if f = 0xF0 then 0x90 else 0x80) ≤ c1 ∧ c1 ≤ (if f = 0xF4 then 0x8F else 0xBF) then
          match rest2 with
          | c2 :: rest3 =>
            if 0x80 ≤ c2 ∧ c2 ≤ 0xBF then
              match rest3 with
              | c3 :: rest4 =>
                if 0x80 ≤ c3 ∧ c3 ≤ 0xBF then
                  ((f - 0xF0) * 262144 + (c1 - 0x80) * 4096 + (c2 - 0x80) * 64 + (c3 - 0x80))
                    :: utf8_lossy rest4
                else replacementChar :: utf8_lossy (c3 :: rest4)
              | [] => [replacementChar]
            else replacementChar :: utf8_lossy (c2 :: rest3)
          | [] => [replacementChar]
        else replacementChar :: utf8_lossy (c1 :: rest2)
      | [] => [replacementChar]
    else replacementChar :: utf8_lossy rest
termination_by l => l.length
decreasing_by all_goals simp_wf <;> omega

/-- `String::from_utf16` restricted to producing code points: `none` on any
unpaired surrogate. -/
def utf16_decode_units : List Nat → Option (List Nat)
  | [] => some []
  | u :: rest =>
    if u < 0xD800 ∨ 0xE000 ≤ u then
      (utf16_decode_units rest).map (u :: ·)
    else if u ≤ 0xDBFF then
      match rest with
      | v :: rest2 =>
        if 0xDC00 ≤ v ∧ v ≤ 0xDFFF then
          (utf16_decode_units rest2).map ((0x10000 + (u - 0xD800) * 1024 + (v - 0xDC00)) :: ·)
        else none
      | [] => none
    else none
termination_by l => l.length
decreasing_by all_goals simp_wf <;> omega

/-- `String::from_utf16_lossy`: unpaired surrogates become U+FFFD. -/
def utf16_lossy_units : List Nat → List Nat
  | [] => []
  | u :: rest =>
    if u < 0xD800 ∨ 0xE000 ≤ u then u :: utf16_lossy_units rest
    else if u ≤ 0xDBFF then
      match rest with
      | v :: rest2 =>
        if 0xDC00 ≤ v ∧ v ≤ 0xDFFF then
          (0x10000 + (u - 0xD800) * 1024 + (v - 0xDC00)) :: utf16_lossy_units rest2
        else replacementChar :: utf16_lossy_units (v :: rest2)
      | [] => [replacementChar]
    else replacementChar :: utf16_lossy_units rest
termination_by l => l.length
decreasing_by all_goals simp_wf <;> omega

/-- Collect big- or little-endian 16-bit code units from consecutive byte
pairs (`chunks_exact(2)` / the `step_by(2)` loops in the source). -/
def utf16_units (littleEndian : Bool) : List Nat → List Nat
  | a :: b :: rest =>
    (if littleEndian then be16 b a else be16 a b) :: utf16_units littleEndian rest
  | _ => []

/-- `decode_utf16_string`. -/
def decode_utf16_string (data : List Nat) (e : TextEncoding) : Except String (List Nat) :=
  if data.isEmpty then .ok []
  else
    match (match e with
      | .utf16Bom =>
        if 2 ≤ data.length then
          if byteAt data 0 = 0xFF ∧ byteAt data 1 = 0xFE then some (2, true)
          else if byteAt data 0 = 0xFE ∧ byteAt data 1 = 0xFF then some (2, false)
          else some (0, false)
        else some (0, false)
      | .utf16Be => some (0, false)
      | _ => none) with
    | none => .error "Invalid UTF-16 encoding"
    | some (start_pos, littleEndian) =>
      let utf16_data := data.drop start_pos
      if utf16_data.length % 2 ≠ 0 then .error "UTF-16 data length must be even"
      else
        match utf16_decode_units (utf16_units littleEndian utf16_data) with
        | some cps => .ok cps
        | none => .error "Invalid UTF-16 sequence"

/-- `decode_text_with_encoding_simple`. -/
def decode_text_with_encoding_simple (data : List Nat) (e : TextEncoding) :
    Except String (List Nat) :=
  match e with
  | .iso88591 => .ok (decode_iso88591_string data)
  | .utf8 => .ok (utf8_lossy data)
  | .utf16Bom | .utf16Be => decode_utf16_string data e

/-- The terminator scan of `find_text_terminator` (always advances one byte). -/
def find_text_terminator_from (data : List Nat) (e : TextEncoding) (pos : Nat) :
    List Nat × List Nat :=
  if pos + get_terminator_length e ≤ data.length then
    if is_null_terminator (slice data pos (pos + get_terminator_length e)) e then
      (slice data 0 pos, data.drop (pos + get_terminator_length e))
    else find_text_terminator_from data e (pos + 1)
  else (data, [])
termination_by data.length - pos
decreasing_by
  simp_wf
  have := get_terminator_length_pos e
  omega

/-- `find_text_terminator` (the source signature is `Result`, but every path
returns `Ok`, so the embedding is total). -/
def find_text_terminator (data : List Nat) (e : TextEncoding) : List Nat × List Nat :=
  find_text_terminator_from data e 0

/-- `split_terminated_text`. -/
def split_terminated_text (data : List Nat) (e : TextEncoding) :
    Except String (List Nat × List Nat) := do
  let (first_bytes, second_bytes) := find_text_terminator data e
  let first ← decode_text_with_encoding_simple first_bytes e
  let second ← decode_text_with_encoding_simple second_bytes e
  .ok (first, second)

/-- Scan stride of the multi-string loop in `decode_text_with_encoding`:
2 bytes for UTF-16, 1 otherwise. -/
def scan_stride : TextEncoding → Nat
  | .utf16Bom | .utf16Be => 2
  | _ => 1

theorem scan_stride_pos (e : TextEncoding) : 1 ≤ scan_stride e := by
  cases e <;> simp [scan_stride]

/-- The inner terminator scan of `decode_text_with_encoding`: returns the
position where the scan stopped and whether a terminator was found there. -/
def scan_for_terminator (data : List Nat) (e : TextEncoding) (pos : Nat) : Nat × Bool :=
  if pos + get_terminator_length e ≤ data.length then
    if is_null_terminator (slice data pos (pos + get_terminator_length e)) e then (pos, true)
    else scan_for_terminator data e (pos + scan_stride e)
  else (pos, false)
termination_by data.length - pos
decreasing_by
  simp_wf
  have h1 := get_terminator_length_pos e
  have h2 := scan_stride_pos e
  omega

theorem scan_for_terminator_ge (data : List Nat) (e : TextEncoding) (pos : Nat) :
    pos ≤ (scan_for_terminator data e pos).1 := by
  unfold scan_for_terminator
  split
  · split
    · exact Nat.le_refl _
    · have ih := scan_for_terminator_ge data e (pos + scan_stride e)
      have h2 := scan_stride_pos e
      omega
  · exact Nat.le_refl _
termination_by data.length - pos
decreasing_by
  simp_wf
  have h1 := get_terminator_length_pos e
  have h2 := scan_stride_pos e
  omega

/-- A decoded segment is pushed only when non-empty. -/
def pushNonEmpty (t : List Nat) : List (List Nat) :=
  if t.isEmpty then [] else [t]

/-- The outer multi-string loop of `decode_text_with_encoding`. -/
def decode_text_strings (data : List Nat) (e : TextEncoding) (pos : Nat) :
    Except String (List (List Nat)) :=
  if h : pos < data.length then
    let scan := scan_for_terminator data e pos
    do
      let segs₁ ←
        if pos < scan.1 then
          (decode_text_with_encoding_simple (slice data pos scan.1) e).map pushNonEmpty
        else .ok []
      if scan.2 then
        let rest ← decode_text_strings data e (scan.1 + get_terminator_length e)
        .ok (segs₁ ++ rest)
      else
        let segs₂ ←
          if scan.1 < data.length then
            (decode_text_with_encoding_simple (data.drop scan.1) e).map pushNonEmpty
          else .ok []
        .ok (segs₁ ++ segs₂)
  else .ok []
termination_by data.length - pos
decreasing_by
  simp_wf
  have h1 := get_terminator_length_pos e
  have h2 := scan_for_terminator_ge data e pos
  omega

/-- `decode_text_with_encoding`: all null-separated strings plus the primary
(first) string. -/
def decode_text_with_encoding (data : List Nat) (e : TextEncoding) :
    Except String (List Nat × List (List Nat)) := do
  let strings ← decode_text_strings data e 0
  .ok (strings.headD [], strings)

/-! ### ID3v2 frame model (`id3v2/frame.rs`, `id3v2/tools.rs`, frame decoders)

Frame ids are kept as their 4 raw bytes.  The source decodes them with
`from_utf8_lossy` / `from_utf8` and then requires every character to be
ASCII-alphanumeric before any id is compared against the allow-lists; on
that domain lossy decoding is the identity, so byte-level comparison with
the ASCII bytes of each allow-list entry is exact. -/

/-- `u8::is_ascii_alphanumeric`. -/
def isAsciiAlnum (b : Nat) : Bool :=
  (0x30 ≤ b ∧ b ≤ 0x39) ∨ (0x41 ≤ b ∧ b ≤ 0x5A) ∨ (0x61 ≤ b ∧ b ≤ 0x7A)

/-- The padding / malformed-id stop test of the frame loops:
`frame_id.starts_with('\0') || !frame_id.chars().all(|c| c.is_ascii_alphanumeric())`. -/
def isPaddingId (id : List Nat) : Bool :=
  id.headD 0 = 0 ∨ ¬ id.all isAsciiAlnum

/-- `VALID_ID3V2_3_FRAME_IDS` of `is_valid_id3v2_3_frame`. -/
def VALID_ID3V2_3_FRAME_IDS : List (List Nat) :=
  (["TALB", "TBPM", "TCOM", "TCON", "TCOP", "TDAT", "TDLY", "TENC", "TEXT", "TFLT",
    "TIME", "TIT1", "TIT2", "TIT3", "TKEY", "TLAN", "TLEN", "TMED", "TOAL", "TOFN",
    "TOLY", "TOPE", "TORY", "TOWN", "TPE1", "TPE2", "TPE3", "TPE4", "TPOS", "TPUB",
    "TRCK", "TRDA", "TRSN", "TRSO", "TSIZ", "TSRC", "TSSE", "TYER", "TXXX",
    "WCOM", "WCOP", "WOAF", "WOAR", "WOAS", "WORS", "WPAY", "WPUB", "WXXX",
    "UFID", "MCDI", "ETCO", "MLLT", "SYTC", "USLT", "SYLT", "COMM", "RVAD", "EQUA",
    "RVRB", "PCNT", "POPM", "RBUF", "AENC", "LINK", "POSS", "USER", "OWNE",
    "COMR", "ENCR", "GRID", "PRIV", "GEOB", "IPLS", "APIC",
    "CHAP", "CTOC"]).map ascii

/-- `VALID_ID3V2_4_FRAME_IDS` of `is_valid_id3v2_4_frame`. -/
def VALID_ID3V2_4_FRAME_IDS : List (List Nat) :=
  (["TALB", "TBPM", "TCOM", "TCON", "TCOP", "TDEN", "TDLY", "TDOR", "TDRC", "TDRL",
    "TDTG", "TENC", "TEXT", "TFLT", "TIPL", "TIT1", "TIT2", "TIT3", "TKEY", "TLAN",
    "TLEN", "TMCL", "TMED", "TMOO", "TOAL", "TOFN", "TOLY", "TOPE", "TOWN", "TPE1",
    "TPE2", "TPE3", "TPE4", "TPOS", "TPRO", "TPUB", "TRCK", "TRSN", "TRSO",
    "TSOA", "TSOP", "TSOT", "TSRC", "TSSE", "TSST", "TXXX",
    "WCOM", "WCOP", "WOAF", "WOAR", "WOAS", "WORS", "WPAY", "WPUB", "WXXX",
    "UFID", "MCDI", "ETCO", "MLLT", "SYTC", "USLT", "SYLT", "COMM", "RVA2", "EQU2",
    "RVRB", "PCNT", "POPM", "RBUF", "AENC", "LINK", "POSS", "USER", "OWNE",
    "COMR", "ENCR", "GRID", "PRIV", "GEOB", "APIC", "SEEK", "ASPI", "SIGN",
    "CHAP", "CTOC"]).map ascii

/-- `is_valid_id3v2_3_frame`. -/
def is_valid_id3v2_3_frame (id : List Nat) : Bool :=
  VALID_ID3V2_3_FRAME_IDS.contains id

/-- `is_valid_id3v2_4_frame`. -/
def is_valid_id3v2_4_frame (id : List Nat) : Bool :=
  VALID_ID3V2_4_FRAME_IDS.contains id

/-- `is_valid_frame_for_version`. -/
def is_valid_frame_for_version (id : List Nat) (version_major : Nat) : Bool :=
  match version_major with
  | 3 => is_valid_id3v2_3_frame id
  | 4 => is_valid_id3v2_4_frame id
  | _ => false

/-- First index `≥ pos` holding a zero byte, or `data.length` when none
exists (the `while pos < data.len() && data[pos] != 0` loops). -/
def findZeroFrom (data : List Nat) (pos : Nat) : Nat :=
  if pos < data.length then
    if byteAt data pos = 0 then pos else findZeroFrom data (pos + 1)
  else pos
termination_by data.length - pos

/-- `TextFrame`. -/
structure TextFrame where
  encoding : TextEncoding
  text : List Nat
  strings : List (List Nat)
deriving DecidableEq

/-- `TextFrame::parse`. -/
def TextFrame.parse (data : List Nat) : Except String TextFrame := do
  if data.isEmpty then throw "Text frame data is empty"
  let encoding ← TextEncoding.from_byte (byteAt data 0)
  if data.length < 2 then throw "Text frame data too short"
  let (text, strings) ← decode_text_with_encoding (data.drop 1) encoding
  .ok { encoding, text, strings }

/-- `UrlFrame`. -/
structure UrlFrame where
  url : List Nat
deriving DecidableEq

/-- `UrlFrame::parse`. -/
def UrlFrame.parse (data : List Nat) : Except String UrlFrame :=
  .ok { url := decode_iso88591_string data }

/-- `UserTextFrame`. -/
structure UserTextFrame where
  encoding : TextEncoding
  description : List Nat
  value : List Nat
deriving DecidableEq

/-- `UserTextFrame::parse`. -/
def UserTextFrame.parse (data : List Nat) : Except String UserTextFrame := do
  if data.isEmpty then throw "User text frame data is empty"
  let encoding ← TextEncoding.from_byte (byteAt data 0)
  if data.length < 2 then throw "User text frame data too short"
  let (description, value) ← split_terminated_text (data.drop 1) encoding
  .ok { encoding, description, value }

/-- `UserUrlFrame`. -/
structure UserUrlFrame where
  encoding : TextEncoding
  description : List Nat
  url : List Nat
deriving DecidableEq

/-- `UserUrlFrame::parse`. -/
def UserUrlFrame.parse (data : List Nat) : Except String UserUrlFrame := do
  if data.isEmpty then throw "User URL frame data is empty"
  let encoding ← TextEncoding.from_byte (byteAt data 0)
  if data.length < 2 then throw "User URL frame data too short"
  let (description_bytes, url_bytes) := find_text_terminator (data.drop 1) encoding
  let description ← decode_text_with_encoding_simple description_bytes encoding
  .ok { encoding, description, url := decode_iso88591_string url_bytes }

/-- `CommentFrame`. -/
structure CommentFrame where
  encoding : TextEncoding
  language : List Nat
  description : List Nat
  text : List Nat
deriving DecidableEq

/-- `CommentFrame::parse`. -/
def CommentFrame.parse (data : List Nat) : Except String CommentFrame := do
  if data.length < 5 then throw "Comment frame data too short"
  let encoding ← TextEncoding.from_byte (byteAt data 0)
  let language := utf8_lossy (slice data 1 4)
  let (description, text) ← split_terminated_text (data.drop 4) encoding
  .ok { encoding, language, description, text }

/-- `AttachedPictureFrame`. -/
structure AttachedPictureFrame where
  encoding : TextEncoding
  mime_type : List Nat
  picture_type : Nat
  description : List Nat
  picture_data : List Nat
deriving DecidableEq

/-- The encoding-aware terminator scan of `AttachedPictureFrame::parse`
(advances one byte per step); returns the stop position. -/
def apicDescScan (data : List Nat) (e : TextEncoding) (pos : Nat) : Nat :=
  if pos + get_terminator_length e ≤ data.length then
    if is_null_terminator (slice data pos (pos + get_terminator_length e)) e then pos
    else apicDescScan data e (pos + 1)
  else pos
termination_by data.length - pos
decreasing_by
  simp_wf
  have := get_terminator_length_pos e
  omega

/-- `AttachedPictureFrame::parse`. -/
def AttachedPictureFrame.parse (data : List Nat) : Except String AttachedPictureFrame := do
  if data.length < 2 then throw "Picture frame data too short"
  let encoding ← TextEncoding.from_byte (byteAt data 0)
  let mimeEnd := findZeroFrom data 1
  if data.length ≤ mimeEnd then throw "Picture frame MIME type not null-terminated"
  let mime_type := decode_iso88591_string (slice data 1 mimeEnd)
  let typePos := mimeEnd + 1
  if data.length ≤ typePos then throw "Picture frame missing picture type"
  let picture_type := byteAt data typePos
  let descStart := typePos + 1
  let descEnd := apicDescScan data encoding descStart
  if data.length < descEnd + get_terminator_length encoding then
    throw "Picture frame description not properly terminated"
  let description ← decode_text_with_encoding_simple (slice data descStart descEnd) encoding
  let picture_data := data.drop (descEnd + get_terminator_length encoding)
  .ok { encoding, mime_type, picture_type, description, picture_data }

/-- `UniqueFileIdFrame`. -/
structure UniqueFileIdFrame where
  owner_identifier : List Nat
  identifier : List Nat
deriving DecidableEq

/-- `UniqueFileIdFrame::parse`. -/
def UniqueFileIdFrame.parse (data : List Nat) : Except String UniqueFileIdFrame := do
  if data.isEmpty then throw "UFID frame data is empty"
  let ownerEnd := findZeroFrom data 0
  if data.length ≤ ownerEnd then throw "UFID owner identifier not null-terminated"
  let owner_identifier := decode_iso88591_string (slice data 0 ownerEnd)
  let identifier := data.drop (ownerEnd + 1)
  if 64 < identifier.length then throw "UFID identifier too long (max 64 bytes)"
  .ok { owner_identifier, identifier }

/-- The child-element-id loop of `TableOfContentsFrame::parse`: read `count`
null-terminated ids starting at `pos`, returning the ids and the final
position. -/
def readTocChildIds (data : List Nat) (pos : Nat) (count : Nat) :
    Except String (List (List Nat) × Nat) :=
  match count with
  | 0 => .ok ([], pos)
  | n + 1 => do
    let idEnd := findZeroFrom data pos
    if data.length ≤ idEnd then throw "TOC frame child element ID not null-terminated"
    let child := decode_iso88591_string (slice data pos idEnd)
    let (restIds, finalPos) ← readTocChildIds data (idEnd + 1) n
    .ok (child :: restIds, finalPos)

mutual

/-- `Id3v2FrameContent`. -/
inductive Id3v2FrameContent : Type where
  | text (t : TextFrame)
  | url (u : UrlFrame)
  | userText (u : UserTextFrame)
  | userUrl (u : UserUrlFrame)
  | comment (c : CommentFrame)
  | picture (p : AttachedPictureFrame)
  | uniqueFileId (u : UniqueFileIdFrame)
  | chapter (c : ChapterFrame)
  | tableOfContents (t : TableOfContentsFrame)
  | binary

/-- `ChapterFrame`. -/
inductive ChapterFrame : Type where
  | mk (element_id : List Nat) (start_time end_time start_offset end_offset : Nat)
      (sub_frames : List Id3v2Frame)

/-- `TableOfContentsFrame`. -/
inductive TableOfContentsFrame : Type where
  | mk (element_id : List Nat) (top_level ordered : Bool)
      (child_element_ids : List (List Nat)) (sub_frames : List Id3v2Frame)

/-- `Id3v2Frame` (the `embedded_frames` field exists on the Rust struct but
is never populated by the parsing paths modelled here). -/
inductive Id3v2Frame : Type where
  | mk (id : List Nat) (size : Nat) (flags : Nat) (offset : Option Nat)
      (data : List Nat) (content : Option Id3v2FrameContent)
      (embedded_frames : Option (List Id3v2Frame))

end

/-- Field accessor: frame id. -/
def Id3v2Frame.id : Id3v2Frame → List Nat
  | .mk i _ _ _ _ _ _ => i

/-- Field accessor: declared size. -/
def Id3v2Frame.size : Id3v2Frame → Nat
  | .mk _ s _ _ _ _ _ => s

/-- Field accessor: flags. -/
def Id3v2Frame.flags : Id3v2Frame → Nat
  | .mk _ _ f _ _ _ _ => f

/-- Field accessor: offset. -/
def Id3v2Frame.offset : Id3v2Frame → Option Nat
  | .mk _ _ _ o _ _ _ => o

/-- Field accessor: raw payload. -/
def Id3v2Frame.data : Id3v2Frame → List Nat
  | .mk _ _ _ _ d _ _ => d

/-- Field accessor: parsed content. -/
def Id3v2Frame.content : Id3v2Frame → Option Id3v2FrameContent
  | .mk _ _ _ _ _ c _ => c

mutual

/-- `Id3v2Frame::parse_content` (returns the content the call stores in
`self.content`; an `error` result leaves `self.content` untouched, i.e.
`none` on the parsing paths modelled here). -/
def parse_content (id : List Nat) (data : List Nat) (version_major : Nat) :
    Except String Id3v2FrameContent :=
  if ¬ is_valid_frame_for_version id version_major then .ok .binary
  else if id.headD 0 = Char.toNat 'T' ∧ id ≠ ascii "TXXX" then
    match TextFrame.parse data with
    | .error e => .error e
    | .ok t =>
      if ¬ t.encoding.is_valid_for_version version_major then
        .error "Text encoding is not valid for this ID3v2 version"
      else .ok (.text t)
  else if id.headD 0 = Char.toNat 'W' ∧ id ≠ ascii "WXXX" then
    match UrlFrame.parse data with
    | .error e => .error e
    | .ok u => .ok (.url u)
  else if id = ascii "TXXX" then
    match UserTextFrame.parse data with
    | .error e => .error e
    | .ok u =>
      if ¬ u.encoding.is_valid_for_version version_major then
        .error "Text encoding is not valid for this ID3v2 version"
      else .ok (.userText u)
  else if id = ascii "WXXX" then
    match UserUrlFrame.parse data with
    | .error e => .error e
    | .ok u =>
      if ¬ u.encoding.is_valid_for_version version_major then
        .error "Text encoding is not valid for this ID3v2 version"
      else .ok (.userUrl u)
  else if id = ascii "COMM" ∨ id = ascii "USLT" then
    match CommentFrame.parse data with
    | .error e => .error e
    | .ok c =>
      if ¬ c.encoding.is_valid_for_version version_major then
        .error "Text encoding is not valid for this ID3v2 version"
      else .ok (.comment c)
  else if id = ascii "APIC" then
    match AttachedPictureFrame.parse data with
    | .error e => .error e
    | .ok p =>
      if ¬ p.encoding.is_valid_for_version version_major then
        .error "Text encoding is not valid for this ID3v2 version"
      else .ok (.picture p)
  else if id = ascii "UFID" then
    match UniqueFileIdFrame.parse data with
    | .error e => .error e
    | .ok u => .ok (.uniqueFileId u)
  else if id = ascii "CHAP" then
    match ChapterFrame.parse data version_major with
    | .error e => .error e
    | .ok c => .ok (.chapter c)
  else if id = ascii "CTOC" then
    match TableOfContentsFrame.parse data version_major with
    | .error e => .error e
    | .ok t => .ok (.tableOfContents t)
  else .ok .binary
termination_by (data.length, 2)
decreasing_by
  all_goals exact Prod.Lex.right _ (by omega)

/-- `ChapterFrame::parse`. -/
def ChapterFrame.parse (data : List Nat) (version_major : Nat) :
    Except String ChapterFrame :=
  if data.isEmpty then .error "Chapter frame data is empty"
  else
    let idEnd := findZeroFrom data 0
    if data.length ≤ idEnd then .error "Chapter frame element ID not null-terminated"
    else
      let element_id := decode_iso88591_string (slice data 0 idEnd)
      let pos := idEnd + 1
      if data.length < pos + 4 then .error "Chapter frame missing start time"
      else
        let start_time := be32At data pos
        if data.length < pos + 8 then .error "Chapter frame missing end time"
        else
          let end_time := be32At data (pos + 4)
          if data.length < pos + 12 then .error "Chapter frame missing start offset"
          else
            let start_offset := be32At data (pos + 8)
            if data.length < pos + 16 then .error "Chapter frame missing end offset"
            else
              let end_offset := be32At data (pos + 12)
              let sub_frames :=
                if hrest : pos + 16 < data.length then
                  parse_embedded_frames_from (data.drop (pos + 16)) version_major 0
                else []
              .ok (.mk element_id start_time end_time start_offset end_offset sub_frames)
termination_by (data.length, 1)
decreasing_by
  simp only [List.length_drop, Nat.sub_zero]
  exact Prod.Lex.left _ _ (by omega)

/-- `TableOfContentsFrame::parse`. -/
def TableOfContentsFrame.parse (data : List Nat) (version_major : Nat) :
    Except String TableOfContentsFrame :=
  if data.isEmpty then .error "Table of contents frame data is empty"
  else
    let idEnd := findZeroFrom data 0
    if data.length ≤ idEnd then .error "TOC frame element ID not null-terminated"
    else
      let element_id := decode_iso88591_string (slice data 0 idEnd)
      let flagsPos := idEnd + 1
      if data.length ≤ flagsPos then .error "TOC frame missing flags"
      else
        let tocFlags := byteAt data flagsPos
        let top_level := tocFlags &&& 0x02 ≠ 0
        let ordered := tocFlags &&& 0x01 ≠ 0
        let countPos := flagsPos + 1
        if data.length ≤ countPos then .error "TOC frame missing entry count"
        else
          let entry_count := byteAt data countPos
          match readTocChildIds data (countPos + 1) entry_count with
          | .error e => .error e
          | .ok (child_element_ids, afterIds) =>
            let sub_frames :=
              if afterIds < data.length then
                parse_embedded_frames_from (data.drop afterIds) version_major 0
              else []
            .ok (.mk element_id top_level ordered child_element_ids sub_frames)
termination_by (data.length, 1)
decreasing_by
  simp only [List.length_drop, Nat.sub_zero]
  rcases Nat.lt_or_ge (data.length - afterIds) data.length with hlt | hge
  · exact Prod.Lex.left _ _ hlt
  · have heq : data.length - afterIds = data.length :=
      Nat.le_antisymm (Nat.sub_le _ _) hge
    rw [heq]
    exact Prod.Lex.right _ (by omega)

/-- `parse_embedded_frames` (`id3v2/tools.rs`), walking the sub-frame region
from relative position `pos`. -/
def parse_embedded_frames_from (frame_data : List Nat) (version_major : Nat) (pos : Nat) :
    List Id3v2Frame :=
  if h : pos + 10 ≤ frame_data.length then
    let frame_id := slice frame_data pos (pos + 4)
    if isPaddingId frame_id then []
    else if ¬ is_valid_frame_for_version frame_id version_major then []
    else
      let frame_size :=
        if version_major = 4 then decode_synchsafe_int (slice frame_data (pos + 4) (pos + 8))
        else be32At frame_data (pos + 4)
      let frame_flags := be16At frame_data (pos + 8)
      if h2 : frame_data.length < pos + 10 + frame_size then []
      else
        let data := slice frame_data (pos + 10) (pos + 10 + frame_size)
        let content := (parse_content frame_id data version_major).toOption
        Id3v2Frame.mk frame_id frame_size frame_flags (some pos) data content none
          :: parse_embedded_frames_from frame_data version_major (pos + 10 + frame_size)
  else []
termination_by (frame_data.length - pos, 0)
decreasing_by
  · apply Prod.Lex.left
    simp only [slice, List.length_take, List.length_drop]
    omega
  · apply Prod.Lex.left
    omega

end

/-! ### ID3v2.3 dissector (`id3v2/dissectors/v3.rs`) -/

/-- `parse_id3v2_3_frame`: parse one ID3v2.3 frame at buffer position `pos`.
Parse-content errors are ignored (`let _ = frame.parse_content(3)`); the
frame keeps its raw data and, on error, no parsed content. -/
def parse_id3v2_3_frame (buffer : List Nat) (pos : Nat) : Option Id3v2Frame :=
  if buffer.length < pos + 10 then none
  else
    let frame_id := slice buffer pos (pos + 4)
    if isPaddingId frame_id then none
    else if ¬ is_valid_frame_for_version frame_id 3 then none
    else
      let frame_size := be32At buffer (pos + 4)
      let frame_flags := be16At buffer (pos + 8)
      if frame_size = 0 ∨ buffer.length - pos - 10 < frame_size then none
      else
        let data := slice buffer (pos + 10) (pos + 10 + frame_size)
        let content := (parse_content frame_id data 3).toOption
        some (.mk frame_id frame_size frame_flags (some pos) data content none)

/-- The frame-iteration loop of `dissect_id3v2_3_with_options`, returning the
frames it parses (display-only work is dropped).  Mirrored behaviour:
padding id stops iteration; an id outside the v2.3 allow-list skips the
whole frame when `0 < size ≤ remaining`, else one byte; a zero size skips
the 10-byte header; a size exceeding the remaining buffer halts iteration;
otherwise the frame is parsed and pushed when `parse_id3v2_3_frame`
succeeds. -/
def id3v2_3_frame_iteration (buffer : List Nat) (pos : Nat) : List Id3v2Frame :=
  if h : pos + 10 ≤ buffer.length then
    let frame_id := slice buffer pos (pos + 4)
    if isPaddingId frame_id then []
    else
      let frame_size := be32At buffer (pos + 4)
      if ¬ is_valid_frame_for_version frame_id 3 then
        if 0 < frame_size ∧ frame_size ≤ buffer.length - pos - 10 then
          id3v2_3_frame_iteration buffer (pos + 10 + frame_size)
        else
          id3v2_3_frame_iteration buffer (pos + 1)
      else if frame_size = 0 then
        id3v2_3_frame_iteration buffer (pos + 10)
      else if buffer.length - pos - 10 < frame_size then []
      else
        match parse_id3v2_3_frame buffer pos with
        | some frame => frame :: id3v2_3_frame_iteration buffer (pos + 10 + frame_size)
        | none => id3v2_3_frame_iteration buffer (pos + 10 + frame_size)
  else []
termination_by buffer.length - pos
decreasing_by all_goals omega

/-- The buffer-preparation and frame-scan pipeline of
`dissect_id3v2_3_with_options` on an in-memory tag buffer: optional
unsynchronization removal, optional extended header (plain big-endian size
in v2.3, overrun is a hard error), then frame iteration. -/
def dissect_id3v2_3 (tag : List Nat) (flags : Nat) : Except String (List Id3v2Frame) :=
  let buffer := if flags &&& 0x80 ≠ 0 then remove_unsynchronization tag else tag
  if flags &&& 0x40 ≠ 0 then
    if 4 ≤ buffer.length then
      let extended_size := be32At buffer 0
      if buffer.length < 4 + extended_size then .error "Invalid extended header size"
      else .ok (id3v2_3_frame_iteration buffer (4 + extended_size))
    else .error "Buffer too small for extended header"
  else .ok (id3v2_3_frame_iteration buffer 0)

/-! ### Claims C3, C4, C5 -/

/-- C3 (amended): a frame id not recognized for the tag's version makes
`parse_content` store the `Binary` fallback; a structurally valid frame is
kept in the model with its raw payload and the parse-content result, a
typed-decode failure leaves the parsed content absent (`none`, not
`Binary`), and frame iteration continues with the following frames in every
such case. -/
theorem frame_binary_fallback_and_decode_failure
    (id data buffer : List Nat) (v pos : Nat)
    (hlen : pos + 10 ≤ buffer.length)
    (hpad : isPaddingId (slice buffer pos (pos + 4)) = false)
    (hvalid : is_valid_frame_for_version (slice buffer pos (pos + 4)) 3 = true)
    (hnz : be32At buffer (pos + 4) ≠ 0)
    (hfit : be32At buffer (pos + 4) ≤ buffer.length - pos - 10) :
    (is_valid_frame_for_version id v = false → parse_content id data v = .ok .binary) ∧
    parse_id3v2_3_frame buffer pos =
      some (Id3v2Frame.mk (slice buffer pos (pos + 4)) (be32At buffer (pos + 4))
        (be16At buffer (pos + 8)) (some pos)
        (slice buffer (pos + 10) (pos + 10 + be32At buffer (pos + 4)))
        (parse_content (slice buffer pos (pos + 4))
          (slice buffer (pos + 10) (pos + 10 + be32At buffer (pos + 4))) 3).toOption
        none) ∧
    (∀ e : String,
      parse_content (slice buffer pos (pos + 4))
          (slice buffer (pos + 10) (pos + 10 + be32At buffer (pos + 4))) 3 = .error e →
      (parse_id3v2_3_frame buffer pos).map Id3v2Frame.content = some none) ∧
    id3v2_3_frame_iteration buffer pos =
      (parse_id3v2_3_frame buffer pos).toList ++
        id3v2_3_frame_iteration buffer (pos + 10 + be32At buffer (pos + 4)) := by
  have hframe : parse_id3v2_3_frame buffer pos =
      some (Id3v2Frame.mk (slice buffer pos (pos + 4)) (be32At buffer (pos + 4))
        (be16At buffer (pos + 8)) (some pos)
        (slice buffer (pos + 10) (pos + 10 + be32At buffer (pos + 4)))
        (parse_content (slice buffer pos (pos + 4))
          (slice buffer (pos + 10) (pos + 10 + be32At buffer (pos + 4))) 3).toOption
        none) := by
    unfold parse_id3v2_3_frame
    rw [if_neg (by omega)]
    simp only [hpad, hvalid, Bool.false_eq_true, if_false, Bool.true_eq_false, not_true,
      ite_false]
    rw [if_neg (by omega)]
  refine ⟨?_, hframe, ?_, ?_⟩
  · intro h
    unfold parse_content
    rw [if_pos (by simp [h])]
  · intro e he
    rw [hframe, he]
    rfl
  · conv_lhs => rw [id3v2_3_frame_iteration.eq_def]
    rw [dif_pos hlen]
    simp only [hpad, hvalid, Bool.false_eq_true, if_false, Bool.true_eq_false, not_true,
      ite_false]
    rw [if_neg hnz, if_neg (by omega)]
    cases parse_id3v2_3_frame buffer pos <;> simp

unseal parse_content scan_for_terminator decode_text_strings utf8_lossy id3v2_3_frame_iteration in
/-- Witness for C3: a `TIT2` frame carrying encoding byte `0x03` (UTF-8) is
rejected for ID3v2.3, and the decoded frame keeps its raw payload with
absent content. -/
theorem frame_binary_fallback_and_decode_failure_witness :
    parse_content (ascii "ZZZZ") [0x00] 3 = .ok .binary ∧
    (parse_id3v2_3_frame (ascii "TIT2" ++ [0, 0, 0, 2, 0, 0, 0x03, 0x41]) 0).map
        Id3v2Frame.content = some none ∧
    (parse_id3v2_3_frame (ascii "TIT2" ++ [0, 0, 0, 2, 0, 0, 0x03, 0x41]) 0).map
        Id3v2Frame.data = some [0x03, 0x41] := by
  have h := frame_binary_fallback_and_decode_failure (ascii "ZZZZ") [0x00]
    (ascii "TIT2" ++ [0, 0, 0, 2, 0, 0, 0x03, 0x41]) 3 0
    (by decide) (by decide) (by decide) (by decide) (by decide)
  refine ⟨h.1 (by decide), ?_, ?_⟩
  · exact h.2.2.1 "Text encoding is not valid for this ID3v2 version" (by rfl)
  · rw [h.2.1]
    rfl

unseal parse_content scan_for_terminator decode_text_strings utf8_lossy id3v2_3_frame_iteration in
/-- C3 counterexample: the claim says a failed typed decode stores the
`Binary` fallback; on a `TIT2` frame with UTF-8 encoding (invalid for
v2.3) `parse_content` fails and the stored content is `none`, not
`some Binary`. -/
theorem frame_decode_failure_not_binary_counterexample :
    (parse_content (ascii "TIT2") [0x03, 0x41] 3).isOk = false ∧
    (parse_id3v2_3_frame (ascii "TIT2" ++ [0, 0, 0, 2, 0, 0, 0x03, 0x41]) 0).map
        Id3v2Frame.content = some none := by
  constructor <;> rfl

/-- C4: a frame whose id passes the v2.3 validity checks but whose declared
size exceeds the remaining tag buffer halts frame iteration with no frame
collected from that position on, while any position holding a frame whose
size fits contributes its frame and continues with the following bytes (so
frames decoded before the oversized one are retained). -/
theorem frame_size_exceeding_buffer_halts
    (buffer : List Nat) (p : Nat)
    (hlen : p + 10 ≤ buffer.length)
    (hpad : isPaddingId (slice buffer p (p + 4)) = false)
    (hvalid : is_valid_frame_for_version (slice buffer p (p + 4)) 3 = true)
    (hbig : buffer.length - p - 10 < be32At buffer (p + 4)) :
    id3v2_3_frame_iteration buffer p = [] ∧
    ∀ q, q + 10 ≤ buffer.length →
      isPaddingId (slice buffer q (q + 4)) = false →
      is_valid_frame_for_version (slice buffer q (q + 4)) 3 = true →
      be32At buffer (q + 4) ≠ 0 →
      be32At buffer (q + 4) ≤ buffer.length - q - 10 →
      id3v2_3_frame_iteration buffer q =
        (parse_id3v2_3_frame buffer q).toList ++
          id3v2_3_frame_iteration buffer (q + 10 + be32At buffer (q + 4)) := by
  constructor
  · rw [id3v2_3_frame_iteration.eq_def]
    rw [dif_pos hlen]
    simp only [hpad, hvalid, Bool.false_eq_true, if_false, Bool.true_eq_false, not_true,
      ite_false]
    rw [if_neg (by omega), if_pos hbig]
  · intro q hqlen hqpad hqvalid hqnz hqfit
    conv_lhs => rw [id3v2_3_frame_iteration.eq_def]
    rw [dif_pos hqlen]
    simp only [hqpad, hqvalid, Bool.false_eq_true, if_false, Bool.true_eq_false, not_true,
      ite_false]
    rw [if_neg hqnz, if_neg (by omega)]
    cases parse_id3v2_3_frame buffer q <;> simp

/-- Witness for C4 (the spec's Scenario B): a tag with a complete `TIT2`
frame followed by a `TALB` frame declaring size 255 stops after the
oversized frame and keeps the earlier frame. -/
theorem frame_size_exceeding_buffer_halts_witness :
    id3v2_3_frame_iteration
      (ascii "TIT2" ++ [0, 0, 0, 2, 0, 0, 0, 72] ++ ascii "TALB" ++ [0, 0, 0, 255, 0, 0, 0])
      12 = [] ∧
    id3v2_3_frame_iteration
      (ascii "TIT2" ++ [0, 0, 0, 2, 0, 0, 0, 72] ++ ascii "TALB" ++ [0, 0, 0, 255, 0, 0, 0])
      0 =
      (parse_id3v2_3_frame
        (ascii "TIT2" ++ [0, 0, 0, 2, 0, 0, 0, 72] ++ ascii "TALB" ++ [0, 0, 0, 255, 0, 0, 0])
        0).toList := by
  have h := frame_size_exceeding_buffer_halts
    (ascii "TIT2" ++ [0, 0, 0, 2, 0, 0, 0, 72] ++ ascii "TALB" ++ [0, 0, 0, 255, 0, 0, 0])
    12 (by decide) (by decide) (by decide) (by decide)
  refine ⟨h.1, ?_⟩
  have h2 := h.2 0 (by decide) (by decide) (by decide) (by decide) (by decide)
  have hpos : 0 + 10 + be32At
      (ascii "TIT2" ++ [0, 0, 0, 2, 0, 0, 0, 72] ++ ascii "TALB" ++ [0, 0, 0, 255, 0, 0, 0])
      (0 + 4) = 12 := by decide
  rw [hpos] at h2
  rw [h2, h.1, List.append_nil]

/-- C5 (amended): at a frame whose 4-byte id is alphanumeric but not in the
v2.3 allow-list, the scanner skips the whole frame (10-byte header plus
declared size) when the declared size is nonzero and fits the remaining
buffer; otherwise — including the declared-size-zero case — it skips exactly
one byte. -/
theorem invalid_frame_id_skip
    (buffer : List Nat) (pos : Nat)
    (hlen : pos + 10 ≤ buffer.length)
    (hpad : isPaddingId (slice buffer pos (pos + 4)) = false)
    (hinv : is_valid_frame_for_version (slice buffer pos (pos + 4)) 3 = false) :
    (0 < be32At buffer (pos + 4) → be32At buffer (pos + 4) ≤ buffer.length - pos - 10 →
      id3v2_3_frame_iteration buffer pos =
        id3v2_3_frame_iteration buffer (pos + 10 + be32At buffer (pos + 4))) ∧
    (be32At buffer (pos + 4) = 0 ∨ buffer.length - pos - 10 < be32At buffer (pos + 4) →
      id3v2_3_frame_iteration buffer pos = id3v2_3_frame_iteration buffer (pos + 1)) := by
  constructor
  · intro h1 h2
    conv_lhs => rw [id3v2_3_frame_iteration.eq_def]
    rw [dif_pos hlen]
    simp only [hpad, hinv, Bool.false_eq_true, if_false, not_false_iff, ite_true]
    rw [if_pos ⟨h1, h2⟩]
  · intro h1
    conv_lhs => rw [id3v2_3_frame_iteration.eq_def]
    rw [dif_pos hlen]
    simp only [hpad, hinv, Bool.false_eq_true, if_false, not_false_iff, ite_true]
    rw [if_neg (by omega)]

/-- Witness for C5: a fitting nonzero declared size skips the whole frame; a
declared size of zero falls back to the one-byte skip. -/
theorem invalid_frame_id_skip_witness :
    id3v2_3_frame_iteration
      (ascii "ZZZZ" ++ [0, 0, 0, 1, 0, 0, 7] ++ ascii "TIT2" ++ [0, 0, 0, 1, 0, 0, 0]) 0 =
      id3v2_3_frame_iteration
        (ascii "ZZZZ" ++ [0, 0, 0, 1, 0, 0, 7] ++ ascii "TIT2" ++ [0, 0, 0, 1, 0, 0, 0]) 11 ∧
    id3v2_3_frame_iteration
      (ascii "ZZZZ" ++ [0, 0, 0, 0, 0, 0] ++ ascii "TIT2" ++ [0, 0, 0, 1, 0, 0, 0]) 0 =
      id3v2_3_frame_iteration
        (ascii "ZZZZ" ++ [0, 0, 0, 0, 0, 0] ++ ascii "TIT2" ++ [0, 0, 0, 1, 0, 0, 0]) 1 := by
  constructor
  · have h := invalid_frame_id_skip
      (ascii "ZZZZ" ++ [0, 0, 0, 1, 0, 0, 7] ++ ascii "TIT2" ++ [0, 0, 0, 1, 0, 0, 0]) 0
      (by decide) (by decide) (by decide)
    have h1 := h.1 (by decide) (by decide)
    have hpos : 0 + 10 + be32At
        (ascii "ZZZZ" ++ [0, 0, 0, 1, 0, 0, 7] ++ ascii "TIT2" ++ [0, 0, 0, 1, 0, 0, 0])
        (0 + 4) = 11 := by decide
    rw [hpos] at h1
    exact h1
  · have h := invalid_frame_id_skip
      (ascii "ZZZZ" ++ [0, 0, 0, 0, 0, 0] ++ ascii "TIT2" ++ [0, 0, 0, 1, 0, 0, 0]) 0
      (by decide) (by decide) (by decide)
    have h1 := h.2 (Or.inl (by decide))
    simpa using h1

unseal parse_content scan_for_terminator decode_text_strings utf8_lossy id3v2_3_frame_iteration in
/-- C5 counterexample: the claim says a declared size that fits the buffer
skips the entire frame.  With declared size 0 (which fits), the code takes
the one-byte fallback instead: scanning from position 0 finds nothing,
while the claimed skip target (position 10) holds a decodable frame. -/
theorem invalid_frame_id_zero_size_counterexample :
    is_valid_frame_for_version
      (slice (ascii "ZZZZ" ++ [0, 0, 0, 0, 0, 0] ++ ascii "TIT2" ++ [0, 0, 0, 1, 0, 0, 0]) 0 4)
      3 = false ∧
    isPaddingId
      (slice (ascii "ZZZZ" ++ [0, 0, 0, 0, 0, 0] ++ ascii "TIT2" ++ [0, 0, 0, 1, 0, 0, 0]) 0 4)
      = false ∧
    be32At (ascii "ZZZZ" ++ [0, 0, 0, 0, 0, 0] ++ ascii "TIT2" ++ [0, 0, 0, 1, 0, 0, 0]) 4
      = 0 ∧
    id3v2_3_frame_iteration
      (ascii "ZZZZ" ++ [0, 0, 0, 0, 0, 0] ++ ascii "TIT2" ++ [0, 0, 0, 1, 0, 0, 0]) 0 = [] ∧
    (id3v2_3_frame_iteration
      (ascii "ZZZZ" ++ [0, 0, 0, 0, 0, 0] ++ ascii "TIT2" ++ [0, 0, 0, 1, 0, 0, 0]) 10).length
      = 1 ∧
    id3v2_3_frame_iteration
        (ascii "ZZZZ" ++ [0, 0, 0, 0, 0, 0] ++ ascii "TIT2" ++ [0, 0, 0, 1, 0, 0, 0]) 0 ≠
      id3v2_3_frame_iteration
        (ascii "ZZZZ" ++ [0, 0, 0, 0, 0, 0] ++ ascii "TIT2" ++ [0, 0, 0, 1, 0, 0, 0])
        (0 + 10 + be32At
          (ascii "ZZZZ" ++ [0, 0, 0, 0, 0, 0] ++ ascii "TIT2" ++ [0, 0, 0, 1, 0, 0, 0]) 4) := by
  refine ⟨rfl, rfl, rfl, rfl, rfl, fun hEq => ?_⟩
  have hl := congrArg List.length hEq
  revert hl
  decide

/-! ### Format dispatcher (`dissector_builder.rs`, `id3v2/dissectors/*.rs`,
`isobmff/dissector.rs::can_handle`, `unknown_dissector.rs`)

The `String::from_utf8_lossy(..) == "ftyp"`-style comparisons are embedded
as byte-level equality with the ASCII bytes of the literal: lossy decoding
maps a byte sequence to a pure-ASCII string exactly when the bytes are that
string's ASCII bytes, so the two tests agree on every input. -/

/-- `detect_id3v2_version`. -/
def detect_id3v2_version (header : List Nat) : Option (Nat × Nat) :=
  if 5 ≤ header.length ∧ slice header 0 3 = [0x49, 0x44, 0x33] then
    some (byteAt header 3, byteAt header 4)
  else none

/-- `detect_mpeg_sync`. -/
def detect_mpeg_sync (header : List Nat) : Bool :=
  2 ≤ header.length ∧ byteAt header 0 = 0xFF ∧ byteAt header 1 &&& 0xE0 = 0xE0

/-- `Id3v23Dissector::can_handle`. -/
def id3v23_can_handle (header : List Nat) : Bool :=
  match detect_id3v2_version header with
  | some (major, _) => major = 3
  | none => detect_mpeg_sync header

/-- `Id3v24Dissector::can_handle` (no MPEG-sync fallback). -/
def id3v24_can_handle (header : List Nat) : Bool :=
  match detect_id3v2_version header with
  | some (major, _) => major = 4
  | none => false

/-- `valid_brands` of `IsobmffDissector::can_handle` (the source lists
`"iso5"` twice; the duplicate is kept). -/
def valid_brands : List (List Nat) :=
  (["isom", "iso2", "iso3", "iso4", "iso5", "iso6", "mp41", "mp42", "mp71",
    "M4A ", "M4V ", "M4P ", "M4B ", "qt  ", "mqt ", "3gp4", "3gp5", "3gp6",
    "3gp7", "3gp8", "3gp9", "3g2a", "3g2b", "3g2c", "mmp4", "avc1", "iso5",
    "MSNV", "dash", "msdh", "msix"]).map ascii

/-- `IsobmffDissector::can_handle`. -/
def isobmff_can_handle (header : List Nat) : Bool :=
  if header.length < 12 then false
  else if slice header 4 8 = ascii "ftyp" then
    valid_brands.contains (slice header 8 12)
  else false

/-- The four dissector variants `DissectorBuilder::build_for_file` can
return. -/
inductive Dissector where
  | id3v23
  | id3v24
  | isobmff
  | unknown
deriving DecidableEq

/-- `MediaDissector::can_handle` dispatch (`UnknownDissector::can_handle`
always answers true). -/
def dissector_can_handle : Dissector → List Nat → Bool
  | .id3v23, h => id3v23_can_handle h
  | .id3v24, h => id3v24_can_handle h
  | .isobmff, h => isobmff_can_handle h
  | .unknown, _ => true

/-- `DissectorBuilder::build_for_file`: try ID3v2.3, ID3v2.4, ISOBMFF in
order on the 12-byte probe header and fall back to the unknown dissector. -/
def build_for_file (header : List Nat) : Dissector :=
  match [Dissector.id3v23, Dissector.id3v24, Dissector.isobmff].find?
      (fun d => dissector_can_handle d header) with
  | some d => d
  | none => .unknown

/-- C6: the dispatcher tries ID3v2.3 (magic + major 3, or MPEG sync when the
magic is absent), then ID3v2.4 (magic + major 4, no sync fallback), then
ISOBMFF (`ftyp` at bytes 4–7 and an allow-listed brand at bytes 8–11),
first match winning with the unknown pass-through as fallback; a 12-byte
`ftyp`/`isom` header selects ISOBMFF while the same header with any
non-allow-listed brand selects no real dissector. -/
theorem dispatcher_first_match (header brand : List Nat)
    (hbl : brand.length = 4) (hnb : valid_brands.contains brand = false) :
    (build_for_file header =
      if id3v23_can_handle header then .id3v23
      else if id3v24_can_handle header then .id3v24
      else if isobmff_can_handle header then .isobmff
      else .unknown) ∧
    (id3v23_can_handle header = true ↔
      ((5 ≤ header.length ∧ slice header 0 3 = ascii "ID3") ∧ byteAt header 3 = 3) ∨
      (¬(5 ≤ header.length ∧ slice header 0 3 = ascii "ID3") ∧ 2 ≤ header.length ∧
        byteAt header 0 = 0xFF ∧ byteAt header 1 &&& 0xE0 = 0xE0)) ∧
    (id3v24_can_handle header = true ↔
      (5 ≤ header.length ∧ slice header 0 3 = ascii "ID3") ∧ byteAt header 3 = 4) ∧
    (isobmff_can_handle header = true ↔
      12 ≤ header.length ∧ slice header 4 8 = ascii "ftyp" ∧
        valid_brands.contains (slice header 8 12) = true) ∧
    build_for_file ([0x00, 0x00, 0x00, 0x14] ++ ascii "ftyp" ++ ascii "isom") = .isobmff ∧
    build_for_file ([0x00, 0x00, 0x00, 0x14] ++ ascii "ftyp" ++ brand) = .unknown := by
  have hmagic : ascii "ID3" = [0x49, 0x44, 0x33] := by decide
  have hbuild : ∀ hd : List Nat, build_for_file hd =
      if id3v23_can_handle hd then .id3v23
      else if id3v24_can_handle hd then .id3v24
      else if isobmff_can_handle hd then .isobmff
      else .unknown := by
    intro hd
    unfold build_for_file
    simp only [List.find?]
    by_cases h3 : id3v23_can_handle hd <;>
      by_cases h4 : id3v24_can_handle hd <;>
        by_cases hb : isobmff_can_handle hd <;>
          simp [dissector_can_handle, h3, h4, hb]
  refine ⟨hbuild header, ?_, ?_, ?_, by decide, ?_⟩
  · rw [hmagic]
    unfold id3v23_can_handle detect_id3v2_version detect_mpeg_sync
    by_cases hm : 5 ≤ header.length ∧ slice header 0 3 = [0x49, 0x44, 0x33] <;>
      simp [hm] <;> tauto
  · rw [hmagic]
    unfold id3v24_can_handle detect_id3v2_version
    by_cases hm : 5 ≤ header.length ∧ slice header 0 3 = [0x49, 0x44, 0x33] <;>
      simp [hm] <;> tauto
  · unfold isobmff_can_handle
    by_cases hl : header.length < 12
    · simp [hl] <;> omega
    · by_cases hf : slice header 4 8 = ascii "ftyp" <;> simp [hl, hf] <;> omega
  · have h8 : ([0x00, 0x00, 0x00, 0x14] ++ ascii "ftyp").length = 8 := by decide
    have hdrop : ([0x00, 0x00, 0x00, 0x14] ++ ascii "ftyp" ++ brand).drop 8 = brand := by
      rw [← h8]
      exact List.drop_left _ _
    have hslice : slice ([0x00, 0x00, 0x00, 0x14] ++ ascii "ftyp" ++ brand) 8 12 = brand := by
      unfold slice
      rw [hdrop, show 12 - 8 = 4 from rfl, ← hbl, List.take_length]
    have hid3 : slice ([0x00, 0x00, 0x00, 0x14] ++ ascii "ftyp" ++ brand) 0 3
        = [0, 0, 0] := rfl
    have h23 : id3v23_can_handle ([0x00, 0x00, 0x00, 0x14] ++ ascii "ftyp" ++ brand)
        = false := by
      unfold id3v23_can_handle detect_id3v2_version
      rw [if_neg (by rw [hid3]; simp)]
      show detect_mpeg_sync _ = false
      unfold detect_mpeg_sync
      rw [show byteAt ([0x00, 0x00, 0x00, 0x14] ++ ascii "ftyp" ++ brand) 0 = 0 from rfl]
      simp
    have h24 : id3v24_can_handle ([0x00, 0x00, 0x00, 0x14] ++ ascii "ftyp" ++ brand)
        = false := by
      unfold id3v24_can_handle detect_id3v2_version
      rw [if_neg (by rw [hid3]; simp)]
    have hiso : isobmff_can_handle ([0x00, 0x00, 0x00, 0x14] ++ ascii "ftyp" ++ brand)
        = false := by
      unfold isobmff_can_handle
      have hlen : ([0x00, 0x00, 0x00, 0x14] ++ ascii "ftyp" ++ brand).length = 12 := by
        rw [List.length_append, h8, hbl]
      rw [if_neg (by omega), if_pos
        (show slice ([0x00, 0x00, 0x00, 0x14] ++ ascii "ftyp" ++ brand) 4 8 = ascii "ftyp"
          from rfl), hslice]
      exact hnb
    rw [hbuild, h23, h24, hiso]
    simp

/-- Witness for C6: `ftyp` with major brand `isom` selects the ISOBMFF
dissector; the same header with brand `zzzz` selects no real dissector. -/
theorem dispatcher_first_match_witness :
    build_for_file ([0x00, 0x00, 0x00, 0x14] ++ ascii "ftyp" ++ ascii "isom")
      = .isobmff ∧
    build_for_file ([0x00, 0x00, 0x00, 0x14] ++ ascii "ftyp" ++ ascii "zzzz")
      = .unknown := by
  have h := dispatcher_first_match [] (ascii "zzzz") (by decide) (by decide)
  exact ⟨h.2.2.2.2.1, h.2.2.2.2.2⟩

/-! ### iTunes metadata decoder (`itunes_metadata.rs`)

Fixed-point fields elsewhere in the ISOBMFF decoders are stored as their
integer numerators: the source converts them to `f64` by dividing by a
power of two, which the numerator determines exactly. -/

/-- Two's-complement reading of an unsigned big-endian value of `bits` bits
(`i8`/`i16`/`i32`/`i64::from_be_bytes`). -/
def toSigned (v : Nat) (bits : Nat) : Int :=
  if v < 2 ^ (bits - 1) then (v : Int) else (v : Int) - 2 ^ bits

/-- `ItunesDataType`. -/
inductive ItunesDataType where
  | implicit
  | utf8
  | utf16Be
  | jpeg
  | png
  | signedInt
  | unsignedInt
  | binary (typeByte : Nat)
deriving DecidableEq

/-- `ItunesDataType::from_flags`: the data type is the low byte of the
3-byte flags. -/
def ItunesDataType.from_flags (flags : Nat) : ItunesDataType :=
  match flags &&& 0xFF with
  | 0x00 => .implicit
  | 0x01 => .utf8
  | 0x02 => .utf16Be
  | 0x0D => .jpeg
  | 0x0E => .png
  | 0x15 => .signedInt
  | 0x16 => .unsignedInt
  | other => .binary other

/-- `ItunesContent`. -/
inductive ItunesContent where
  | text (s : List Nat)
  | integer (value : Int)
  | unsignedInteger (value : Nat)
  | image (format : List Nat) (data_size : Nat)
  | binary (data : List Nat)
  | trackNumber (track total_tracks : Nat)
  | diskNumber (disk total_disks : Nat)
deriving DecidableEq

/-- `ItunesMetadata`. -/
structure ItunesMetadata where
  data_type : ItunesDataType
  content : ItunesContent
deriving DecidableEq

/-- `ItunesMetadata::parse`: 1 version byte, 3 flag bytes (low byte selects
the content interpretation), 4 reserved bytes, then content;
`trkn`/`disk` special-case the implicit and unsigned-int tags as a
3×16-bit tuple. -/
def ItunesMetadata.parse (box_type : List Nat) (data : List Nat) :
    Except String ItunesMetadata :=
  if data.length < 8 then .error "iTunes data box too short"
  else
    let flags := be32 0 (byteAt data 1) (byteAt data 2) (byteAt data 3)
    let data_type := ItunesDataType.from_flags flags
    let payload := data.drop 8
    match data_type with
    | .implicit =>
      if (box_type = ascii "trkn" ∨ box_type = ascii "disk") ∧ 6 ≤ payload.length then
        let number := be16 (byteAt payload 2) (byteAt payload 3)
        let total := be16 (byteAt payload 4) (byteAt payload 5)
        if box_type = ascii "trkn" then
          .ok { data_type := data_type, content := .trackNumber number total }
        else
          .ok { data_type := data_type, content := .diskNumber number total }
      else
        .ok { data_type := data_type, content := .text (utf8_lossy payload) }
    | .utf8 => .ok { data_type := data_type, content := .text (utf8_lossy payload) }
    | .utf16Be =>
      .ok { data_type := data_type, content := .text (utf16_lossy_units (utf16_units false payload)) }
    | .signedInt =>
      match payload.length with
      | 1 => .ok { data_type := data_type, content := .integer (toSigned (byteAt payload 0) 8) }
      | 2 =>
        .ok { data_type := data_type,
              content := .integer (toSigned (be16 (byteAt payload 0) (byteAt payload 1)) 16) }
      | 4 => .ok { data_type := data_type, content := .integer (toSigned (be32At payload 0) 32) }
      | 8 => .ok { data_type := data_type, content := .integer (toSigned (be64At payload 0) 64) }
      | _ => .error "Invalid signed integer size"
    | .unsignedInt =>
      if (box_type = ascii "trkn" ∨ box_type = ascii "disk") ∧ 6 ≤ payload.length then
        let number := be16 (byteAt payload 2) (byteAt payload 3)
        let total := be16 (byteAt payload 4) (byteAt payload 5)
        if box_type = ascii "trkn" then
          .ok { data_type := data_type, content := .trackNumber number total }
        else
          .ok { data_type := data_type, content := .diskNumber number total }
      else
        match payload.length with
        | 1 => .ok { data_type := data_type, content := .unsignedInteger (byteAt payload 0) }
        | 2 =>
          .ok { data_type := data_type,
                content := .unsignedInteger (be16 (byteAt payload 0) (byteAt payload 1)) }
        | 4 => .ok { data_type := data_type, content := .unsignedInteger (be32At payload 0) }
        | 8 => .ok { data_type := data_type, content := .unsignedInteger (be64At payload 0) }
        | _ => .error "Invalid unsigned integer size"
    | .jpeg => .ok { data_type := data_type, content := .image (ascii "JPEG") payload.length }
    | .png => .ok { data_type := data_type, content := .image (ascii "PNG") payload.length }
    | .binary _ => .ok { data_type := data_type, content := .binary payload }

/-! ### ISOBMFF leaf-box content decoders (`isobmff/boxes/*.rs`,
`isobmff/content.rs`) -/

/-- `str::trim_end_matches('\0')` on a decoded string. -/
def trimEndZeros (l : List Nat) : List Nat :=
  (l.reverse.dropWhile (· == 0)).reverse

/-- `chunks(4)` keeping only the complete 4-byte chunks. -/
def chunks4 : List Nat → List (List Nat)
  | a :: b :: c :: d :: rest => [a, b, c, d] :: chunks4 rest
  | _ => []

/-- `FileTypeBox`. -/
structure FileTypeBox where
  major_brand : List Nat
  minor_version : Nat
  compatible_brands : List (List Nat)
deriving DecidableEq

/-- `FileTypeBox::parse`. -/
def FileTypeBox.parse (data : List Nat) : Except String FileTypeBox :=
  if data.length < 8 then .error "ftyp box too short"
  else
    .ok { major_brand := utf8_lossy (slice data 0 4)
          minor_version := be32At data 4
          compatible_brands := (chunks4 (data.drop 8)).map utf8_lossy }

/-- `MovieHeaderBox` (`rate`/`volume` stored as their fixed-point
numerators). -/
structure MovieHeaderBox where
  version : Nat
  creation_time : Nat
  modification_time : Nat
  timescale : Nat
  duration : Nat
  rate_fixed : Int
  volume_fixed : Int
deriving DecidableEq

/-- `MovieHeaderBox::parse`. -/
def MovieHeaderBox.parse (data : List Nat) : Except String MovieHeaderBox :=
  if data.length < 4 then .error "mvhd box too short"
  else
    let version := byteAt data 0
    if version = 1 then
      if data.length < 36 then .error "mvhd version 1 box too short"
      else if data.length < 32 + 8 then .error "mvhd box too short for rate/volume"
      else
        .ok { version
              creation_time := be64At data 4
              modification_time := be64At data 12
              timescale := be32At data 20
              duration := be64At data 24
              rate_fixed := toSigned (be32At data 32) 32
              volume_fixed := toSigned (be16At data 36) 16 }
    else
      if data.length < 24 then .error "mvhd version 0 box too short"
      else if data.length < 20 + 8 then .error "mvhd box too short for rate/volume"
      else
        .ok { version
              creation_time := be32At data 4
              modification_time := be32At data 8
              timescale := be32At data 12
              duration := be32At data 16
              rate_fixed := toSigned (be32At data 20) 32
              volume_fixed := toSigned (be16At data 24) 16 }

/-- `TrackHeaderBox` (`volume`/`width`/`height` stored as fixed-point
numerators). -/
structure TrackHeaderBox where
  version : Nat
  flags : Nat
  creation_time : Nat
  modification_time : Nat
  track_id : Nat
  duration : Nat
  layer : Int
  alternate_group : Int
  volume_fixed : Int
  width_fixed : Nat
  height_fixed : Nat
deriving DecidableEq

/-- `TrackHeaderBox::parse`. -/
def TrackHeaderBox.parse (data : List Nat) : Except String TrackHeaderBox :=
  if data.length < 4 then .error "tkhd box too short"
  else
    let version := byteAt data 0
    let flags := be32 0 (byteAt data 1) (byteAt data 2) (byteAt data 3)
    if version = 1 then
      if data.length < 40 then .error "tkhd version 1 box too short"
      else if data.length < 36 + 52 then .error "tkhd box too short for additional fields"
      else
        .ok { version, flags
              creation_time := be64At data 4
              modification_time := be64At data 12
              track_id := be32At data 20
              duration := be64At data 28
              layer := toSigned (be16At data 44) 16
              alternate_group := toSigned (be16At data 46) 16
              volume_fixed := toSigned (be16At data 48) 16
              width_fixed := be32At data 88
              height_fixed := be32At data 92 }
    else
      if data.length < 28 then .error "tkhd version 0 box too short"
      else if data.length < 24 + 52 then .error "tkhd box too short for additional fields"
      else
        .ok { version, flags
              creation_time := be32At data 4
              modification_time := be32At data 8
              track_id := be32At data 12
              duration := be32At data 20
              layer := toSigned (be16At data 32) 16
              alternate_group := toSigned (be16At data 34) 16
              volume_fixed := toSigned (be16At data 36) 16
              width_fixed := be32At data 76
              height_fixed := be32At data 80 }

/-- `MediaHeaderBox`. -/
structure MediaHeaderBox where
  version : Nat
  creation_time : Nat
  modification_time : Nat
  timescale : Nat
  duration : Nat
  language : List Nat
deriving DecidableEq

/-- `MediaHeaderBox::parse` (the language is three 5-bit codes, each
`+ 0x60`). -/
def MediaHeaderBox.parse (data : List Nat) : Except String MediaHeaderBox :=
  if data.length < 4 then .error "mdhd box too short"
  else
    let version := byteAt data 0
    let parseWith := fun (creation modification timescale duration lang_offset : Nat) =>
      if data.length < lang_offset + 2 then
        Except.error "mdhd box too short for language"
      else
        let lang_code := be16At data lang_offset
        Except.ok { version := version
                    creation_time := creation
                    modification_time := modification
                    timescale := timescale
                    duration := duration
                    language := [((lang_code >>> 10) &&& 0x1F) + 0x60,
                      ((lang_code >>> 5) &&& 0x1F) + 0x60, (lang_code &&& 0x1F) + 0x60] }
    if version = 1 then
      if data.length < 36 then .error "mdhd version 1 box too short"
      else parseWith (be64At data 4) (be64At data 12) (be32At data 20) (be64At data 24) 32
    else
      if data.length < 24 then .error "mdhd version 0 box too short"
      else parseWith (be32At data 4) (be32At data 8) (be32At data 12) (be32At data 16) 20

/-- `HandlerBox`. -/
structure HandlerBox where
  version : Nat
  handler_type : List Nat
  manufacturer : List Nat
  name : List Nat
deriving DecidableEq

/-- `HandlerBox::parse`. -/
def HandlerBox.parse (data : List Nat) : Except String HandlerBox :=
  if data.length < 24 then .error "hdlr box too short"
  else
    .ok { version := byteAt data 0
          handler_type := utf8_lossy (slice data 8 12)
          manufacturer := trimEndZeros (utf8_lossy (slice data 12 16))
          name := if 24 < data.length then trimEndZeros (utf8_lossy (data.drop 24)) else [] }

/-- `VideoMediaHeaderBox`. -/
structure VideoMediaHeaderBox where
  version : Nat
  graphics_mode : Nat
  opcolor_r : Nat
  opcolor_g : Nat
  opcolor_b : Nat
deriving DecidableEq

/-- `VideoMediaHeaderBox::parse`. -/
def VideoMediaHeaderBox.parse (data : List Nat) : Except String VideoMediaHeaderBox :=
  if data.length < 12 then .error "vmhd box too short"
  else
    .ok { version := byteAt data 0
          graphics_mode := be16At data 4
          opcolor_r := be16At data 6
          opcolor_g := be16At data 8
          opcolor_b := be16At data 10 }

/-- `SoundMediaHeaderBox` (`balance` stored as its 8.8 fixed-point
numerator). -/
structure SoundMediaHeaderBox where
  version : Nat
  balance_fixed : Int
deriving DecidableEq

/-- `SoundMediaHeaderBox::parse`. -/
def SoundMediaHeaderBox.parse (data : List Nat) : Except String SoundMediaHeaderBox :=
  if data.length < 8 then .error "smhd box too short"
  else .ok { version := byteAt data 0, balance_fixed := toSigned (be16At data 4) 16 }

/-- `NullMediaHeaderBox`. -/
structure NullMediaHeaderBox where
  version : Nat
deriving DecidableEq

/-- `NullMediaHeaderBox::parse`. -/
def NullMediaHeaderBox.parse (data : List Nat) : Except String NullMediaHeaderBox :=
  if data.length < 4 then .error "nmhd box too short"
  else .ok { version := byteAt data 0 }

/-- `DataReferenceBox`. -/
structure DataReferenceBox where
  version : Nat
  entry_count : Nat
deriving DecidableEq

/-- `DataReferenceBox::parse`. -/
def DataReferenceBox.parse (data : List Nat) : Except String DataReferenceBox :=
  if data.length < 8 then .error "dref box too short"
  else .ok { version := byteAt data 0, entry_count := be32At data 4 }

/-- `UrlEntryBox`. -/
structure UrlEntryBox where
  version : Nat
  flags : Nat
  location : List Nat
deriving DecidableEq

/-- `UrlEntryBox::parse`. -/
def UrlEntryBox.parse (data : List Nat) : Except String UrlEntryBox :=
  if data.length < 4 then .error "url box too short"
  else
    let flags := be32 0 (byteAt data 1) (byteAt data 2) (byteAt data 3)
    .ok { version := byteAt data 0, flags
          location :=
            if flags &&& 0x000001 ≠ 0 then ascii "(data in same file)"
            else if 4 < data.length then trimEndZeros (utf8_lossy (data.drop 4))
            else [] }

/-- `UrnEntryBox`. -/
structure UrnEntryBox where
  version : Nat
  flags : Nat
  name : List Nat
  location : List Nat
deriving DecidableEq

/-- `UrnEntryBox::parse`. -/
def UrnEntryBox.parse (data : List Nat) : Except String UrnEntryBox :=
  if data.length < 4 then .error "urn box too short"
  else
    let flags := be32 0 (byteAt data 1) (byteAt data 2) (byteAt data 3)
    let payload := data.drop 4
    let nullPos := findZeroFrom payload 0
    if 4 < data.length ∧ nullPos < payload.length then
      .ok { version := byteAt data 0, flags
            name := utf8_lossy (payload.take nullPos)
            location :=
              if nullPos + 1 < payload.length then
                trimEndZeros (utf8_lossy (payload.drop (nullPos + 1)))
              else [] }
    else
      .ok { version := byteAt data 0, flags, name := [], location := [] }

/-- `SampleDescriptionBox`. -/
structure SampleDescriptionBox where
  version : Nat
  entry_count : Nat
  entries : List (List Nat)
deriving DecidableEq

/-- The `stsd` entry loop: a short entry header stops the list, and each
entry advances by its own declared size (stopping when the offset leaves
the buffer). -/
def stsdEntries (data : List Nat) (offset : Nat) : Nat → List (List Nat)
  | 0 => []
  | n + 1 =>
    if data.length < offset + 8 then []
    else
      let format := utf8_lossy (slice data (offset + 4) (offset + 8))
      let offset2 := offset + be32At data offset
      if data.length ≤ offset2 then [format]
      else format :: stsdEntries data offset2 n

/-- `SampleDescriptionBox::parse`. -/
def SampleDescriptionBox.parse (data : List Nat) : Except String SampleDescriptionBox :=
  if data.length < 8 then .error "stsd box too short"
  else
    .ok { version := byteAt data 0
          entry_count := be32At data 4
          entries := stsdEntries data 8 (be32At data 4) }

/-- `TimeToSampleBox`. -/
structure TimeToSampleBox where
  version : Nat
  entry_count : Nat
deriving DecidableEq

/-- `TimeToSampleBox::parse`. -/
def TimeToSampleBox.parse (data : List Nat) : Except String TimeToSampleBox :=
  if data.length < 8 then .error "stts box too short"
  else .ok { version := byteAt data 0, entry_count := be32At data 4 }

/-- `SampleToChunkBox`. -/
structure SampleToChunkBox where
  version : Nat
  entry_count : Nat
deriving DecidableEq

/-- `SampleToChunkBox::parse`. -/
def SampleToChunkBox.parse (data : List Nat) : Except String SampleToChunkBox :=
  if data.length < 8 then .error "stsc box too short"
  else .ok { version := byteAt data 0, entry_count := be32At data 4 }

/-- `SampleSizeBox`. -/
structure SampleSizeBox where
  version : Nat
  sample_size : Nat
  sample_count : Nat
deriving DecidableEq

/-- `SampleSizeBox::parse`. -/
def SampleSizeBox.parse (data : List Nat) : Except String SampleSizeBox :=
  if data.length < 12 then .error "stsz box too short"
  else
    .ok { version := byteAt data 0
          sample_size := be32At data 4
          sample_count := be32At data 8 }

/-- `ChunkOffsetBox`. -/
structure ChunkOffsetBox where
  version : Nat
  entry_count : Nat
deriving DecidableEq

/-- `ChunkOffsetBox::parse`. -/
def ChunkOffsetBox.parse (data : List Nat) : Except String ChunkOffsetBox :=
  if data.length < 8 then .error "stco box too short"
  else .ok { version := byteAt data 0, entry_count := be32At data 4 }

/-- `ChunkOffset64Box`. -/
structure ChunkOffset64Box where
  version : Nat
  entry_count : Nat
deriving DecidableEq

/-- `ChunkOffset64Box::parse`. -/
def ChunkOffset64Box.parse (data : List Nat) : Except String ChunkOffset64Box :=
  if data.length < 8 then .error "co64 box too short"
  else .ok { version := byteAt data 0, entry_count := be32At data 4 }

/-- `EditListBox`. -/
structure EditListBox where
  version : Nat
  entry_count : Nat
deriving DecidableEq

/-- `EditListBox::parse`. -/
def EditListBox.parse (data : List Nat) : Except String EditListBox :=
  if data.length < 8 then .error "elst box too short"
  else .ok { version := byteAt data 0, entry_count := be32At data 4 }

/-- `ChapterBox` (chapter track references). -/
structure ChapterBox where
  track_ids : List Nat
deriving DecidableEq

/-- `ChapterBox::parse`. -/
def ChapterBox.parse (data : List Nat) : Except String ChapterBox :=
  if data.length < 4 then .error "chap box too short"
  else
    .ok { track_ids := (chunks4 data).map
            (fun c => be32 (byteAt c 0) (byteAt c 1) (byteAt c 2) (byteAt c 3)) }

/-- `MetadataMeanBox`. -/
structure MetadataMeanBox where
  version : Nat
  namespace' : List Nat
deriving DecidableEq

/-- `MetadataMeanBox::parse` (the Rust field is `namespace`). -/
def MetadataMeanBox.parse (data : List Nat) : Except String MetadataMeanBox :=
  if data.length < 4 then .error "mean box too short"
  else
    .ok { version := byteAt data 0
          namespace' := if 4 < data.length then trimEndZeros (utf8_lossy (data.drop 4))
            else [] }

/-- `MetadataNameBox`. -/
structure MetadataNameBox where
  version : Nat
  name : List Nat
deriving DecidableEq

/-- `MetadataNameBox::parse`. -/
def MetadataNameBox.parse (data : List Nat) : Except String MetadataNameBox :=
  if data.length < 4 then .error "name box too short"
  else
    .ok { version := byteAt data 0
          name := if 4 < data.length then trimEndZeros (utf8_lossy (data.drop 4)) else [] }

/-- `IsobmffContent` (`isobmff/content.rs`). -/
inductive IsobmffContent where
  | fileType (b : FileTypeBox)
  | movieHeader (b : MovieHeaderBox)
  | trackHeader (b : TrackHeaderBox)
  | mediaHeader (b : MediaHeaderBox)
  | handler (b : HandlerBox)
  | videoMediaHeader (b : VideoMediaHeaderBox)
  | soundMediaHeader (b : SoundMediaHeaderBox)
  | nullMediaHeader (b : NullMediaHeaderBox)
  | dataReference (b : DataReferenceBox)
  | sampleDescription (b : SampleDescriptionBox)
  | timeToSample (b : TimeToSampleBox)
  | sampleToChunk (b : SampleToChunkBox)
  | sampleSize (b : SampleSizeBox)
  | chunkOffset (b : ChunkOffsetBox)
  | chunkOffset64 (b : ChunkOffset64Box)
  | editList (b : EditListBox)
  | urlEntry (b : UrlEntryBox)
  | urnEntry (b : UrnEntryBox)
  | chapter (b : ChapterBox)
  | metadataMean (b : MetadataMeanBox)
  | metadataName (b : MetadataNameBox)
deriving DecidableEq

/-- The leaf-content dispatch of `IsobmffDissector::parse_boxes`
(`.ok()` results only; a failed typed parse leaves no content). -/
def parse_box_content (box_type data : List Nat) : Option IsobmffContent :=
  if box_type = ascii "ftyp" then (FileTypeBox.parse data).toOption.map .fileType
  else if box_type = ascii "mvhd" then (MovieHeaderBox.parse data).toOption.map .movieHeader
  else if box_type = ascii "tkhd" then (TrackHeaderBox.parse data).toOption.map .trackHeader
  else if box_type = ascii "mdhd" then (MediaHeaderBox.parse data).toOption.map .mediaHeader
  else if box_type = ascii "hdlr" then (HandlerBox.parse data).toOption.map .handler
  else if box_type = ascii "vmhd" then
    (VideoMediaHeaderBox.parse data).toOption.map .videoMediaHeader
  else if box_type = ascii "smhd" then
    (SoundMediaHeaderBox.parse data).toOption.map .soundMediaHeader
  else if box_type = ascii "nmhd" then
    (NullMediaHeaderBox.parse data).toOption.map .nullMediaHeader
  else if box_type = ascii "dref" then
    (DataReferenceBox.parse data).toOption.map .dataReference
  else if box_type = ascii "stsd" then
    (SampleDescriptionBox.parse data).toOption.map .sampleDescription
  else if box_type = ascii "stts" then (TimeToSampleBox.parse data).toOption.map .timeToSample
  else if box_type = ascii "stsc" then (SampleToChunkBox.parse data).toOption.map .sampleToChunk
  else if box_type = ascii "stsz" then (SampleSizeBox.parse data).toOption.map .sampleSize
  else if box_type = ascii "stco" then (ChunkOffsetBox.parse data).toOption.map .chunkOffset
  else if box_type = ascii "co64" then
    (ChunkOffset64Box.parse data).toOption.map .chunkOffset64
  else if box_type = ascii "elst" then (EditListBox.parse data).toOption.map .editList
  else if box_type = ascii "url " then (UrlEntryBox.parse data).toOption.map .urlEntry
  else if box_type = ascii "urn " then (UrnEntryBox.parse data).toOption.map .urnEntry
  else if box_type = ascii "chap" then (ChapterBox.parse data).toOption.map .chapter
  else if box_type = ascii "mean" then (MetadataMeanBox.parse data).toOption.map .metadataMean
  else if box_type = ascii "name" then (MetadataNameBox.parse data).toOption.map .metadataName
  else none

/-! ### ISOBMFF box-tree decoder (`isobmff/dissector.rs`, `isobmff/box.rs`) -/

/-- `is_ascii_graphic`. -/
def isAsciiGraphic (b : Nat) : Bool := 0x21 ≤ b ∧ b ≤ 0x7E

/-- `IsobmffDissector::box_type_to_string`: `0xA9` stays `©` (code point
169), ASCII-graphic bytes and the space stay themselves, everything else
becomes `?`. -/
def box_type_to_string (bytes : List Nat) : List Nat :=
  bytes.map fun b =>
    if b = 0xA9 then 0xA9
    else if isAsciiGraphic b ∨ b = 0x20 then b
    else 0x3F

/-- The fixed iTunes metadata box-type list shared by
`is_container_type` (`isobmff/box.rs`) and
`IsobmffDissector::is_itunes_metadata_box`. -/
def ITUNES_METADATA_BOX_TYPES : List (List Nat) :=
  (["trkn", "disk", "tmpo", "covr", "aART", "----", "gnre", "hdvd", "pgap", "pcst",
    "cpil", "rtng", "stik", "tven", "tves", "tvnn", "tvsh", "tvsn", "apID", "akID",
    "atID", "cnID", "geID", "plID", "sfID", "soaa", "soal", "soar", "soco", "sonm",
    "sosn", "xid ", "keyw", "catg", "purl", "egid", "desc", "ldes", "sdes"]).map ascii

/-- `is_itunes_metadata_box`: type starts with `©` or is in the fixed
metadata list. -/
def is_itunes_metadata_box (box_type : List Nat) : Bool :=
  box_type.headD 0 = 0xA9 ∨ ITUNES_METADATA_BOX_TYPES.contains box_type

/-- `is_container_type` (`isobmff/box.rs`): the standard container set plus
every iTunes metadata box type. -/
def is_container_type (box_type : List Nat) : Bool :=
  ((["moov", "trak", "edts", "mdia", "minf", "dinf", "stbl", "mvex", "moof", "traf",
    "mfra", "meta", "ipro", "udta", "tref", "ilst"]).map ascii).contains box_type ∨
  is_itunes_metadata_box box_type

/-- `IsobmffBox`. -/
inductive IsobmffBox : Type where
  | mk (offset : Nat) (box_type : List Nat) (size : Nat) (header_size : Nat)
      (is_container : Bool) (children : List IsobmffBox) (data : List Nat)
      (content : Option IsobmffContent) (itunes_content : Option ItunesMetadata)

/-- Field accessor: file offset. -/
def IsobmffBox.offset : IsobmffBox → Nat
  | .mk o _ _ _ _ _ _ _ _ => o

/-- Field accessor: box type (as mapped code points). -/
def IsobmffBox.box_type : IsobmffBox → List Nat
  | .mk _ t _ _ _ _ _ _ _ => t

/-- Field accessor: box size (header included). -/
def IsobmffBox.size : IsobmffBox → Nat
  | .mk _ _ s _ _ _ _ _ _ => s

/-- Field accessor: header size (8 or 16). -/
def IsobmffBox.header_size : IsobmffBox → Nat
  | .mk _ _ _ h _ _ _ _ _ => h

/-- Field accessor: container flag. -/
def IsobmffBox.is_container : IsobmffBox → Bool
  | .mk _ _ _ _ c _ _ _ _ => c

/-- Field accessor: child boxes. -/
def IsobmffBox.children : IsobmffBox → List IsobmffBox
  | .mk _ _ _ _ _ cs _ _ _ => cs

/-- Field accessor: raw leaf payload. -/
def IsobmffBox.data : IsobmffBox → List Nat
  | .mk _ _ _ _ _ _ d _ _ => d

/-- Field accessor: parsed leaf content. -/
def IsobmffBox.content : IsobmffBox → Option IsobmffContent
  | .mk _ _ _ _ _ _ _ c _ => c

/-- Field accessor: attached iTunes metadata. -/
def IsobmffBox.itunes_content : IsobmffBox → Option ItunesMetadata
  | .mk _ _ _ _ _ _ _ _ i => i

/-- The size/extended-size step of `parse_boxes`: read the 32-bit size;
`1` means a 64-bit extended size follows (16-byte header), `0` means the
box extends to `end_offset` (8-byte header), anything else is the size
itself (8-byte header). -/
def read_box_size (file : List Nat) (current_offset end_offset : Nat) :
    Except String (Nat × Nat) :=
  let size_32 := be32At file current_offset
  if size_32 = 1 then
    if file.length < current_offset + 16 then .error "Failed to read extended size"
    else .ok (be64At file (current_offset + 8), 16)
  else if size_32 = 0 then .ok (end_offset - current_offset, 8)
  else .ok (size_32, 8)

theorem read_box_size_header_size (file : List Nat) (co eo bs hs : Nat)
    (h : read_box_size file co eo = .ok (bs, hs)) : hs = 8 ∨ hs = 16 := by
  unfold read_box_size at h
  by_cases h1 : be32At file co = 1
  · by_cases h2 : file.length < co + 16
    · simp [h1, h2] at h
    · simp [h1, h2] at h
      omega
  · by_cases h0 : be32At file co = 0
    · simp [h1, h0] at h
      omega
    · simp [h1, h0] at h
      omega

mutual

/-- `IsobmffDissector::parse_boxes`: depth guard, then the box scan loop. -/
def parse_boxes (file : List Nat) (start_offset end_offset depth : Nat) :
    Except String (List IsobmffBox) :=
  if 20 < depth then .error "Maximum box nesting depth exceeded"
  else parse_boxes_loop file start_offset end_offset depth
termination_by (end_offset - start_offset, 1)
decreasing_by
  exact Prod.Lex.right _ (by omega)

/-- The `while current_offset < end_offset` loop of `parse_boxes`: read and
validate one box header, recurse into containers (with the `meta`/`dref`
prefix skip), read small leaf payloads and dispatch their typed content,
attach iTunes metadata to metadata containers, then continue after the
box. -/
def parse_boxes_loop (file : List Nat) (current_offset end_offset depth : Nat) :
    Except String (List IsobmffBox) :=
  if hin : current_offset < end_offset then
    if hread : file.length < current_offset + 8 then .error "Failed to read box header"
    else
      let box_type := box_type_to_string (slice file (current_offset + 4) (current_offset + 8))
      match hsz : read_box_size file current_offset end_offset with
      | .error e => .error e
      | .ok (box_size, header_size) =>
        if hsmall : box_size < header_size then
          .error "Invalid box size (smaller than header)"
        else if hover : end_offset < current_offset + box_size then
          .error "Box extends beyond parent"
        else
          match (if is_container_type box_type then
              let content_start0 := current_offset + header_size
              let content_end := current_offset + box_size
              let content_start :=
                if box_type = ascii "meta" ∧ 4 ≤ content_end - content_start0 then
                  content_start0 + 4
                else if box_type = ascii "dref" ∧ 8 ≤ content_end - content_start0 then
                  content_start0 + 8
                else content_start0
              match parse_boxes file content_start content_end (depth + 1) with
              | .error e => .error e
              | .ok children =>
                let itunes_content :=
                  if is_itunes_metadata_box box_type then
                    match children.find? (fun c => c.box_type == ascii "data") with
                    | some data_box =>
                      if data_box.data.isEmpty then none
                      else (ItunesMetadata.parse box_type data_box.data).toOption
                    | none => none
                  else none
                .ok (IsobmffBox.mk current_offset box_type box_size header_size true
                  children [] none itunes_content)
            else
              let data_size := box_size - header_size
              if 0 < data_size ∧ data_size ≤ 1048576 then
                if file.length < current_offset + header_size + data_size then
                  .error "Failed to read box data"
                else
                  let data := slice file (current_offset + header_size)
                    (current_offset + header_size + data_size)
                  .ok (IsobmffBox.mk current_offset box_type box_size header_size false
                    [] data (parse_box_content box_type data) none)
              else
                .ok (IsobmffBox.mk current_offset box_type box_size header_size false
                  [] [] none none) : Except String IsobmffBox) with
          | .error e => .error e
          | .ok isobmff_box =>
            match parse_boxes_loop file (current_offset + box_size) end_offset depth with
            | .error e => .error e
            | .ok rest => .ok (isobmff_box :: rest)
  else .ok []
termination_by (end_offset - current_offset, 0)
decreasing_by
  all_goals
    (have h8 := read_box_size_header_size file current_offset end_offset box_size header_size hsz
     apply Prod.Lex.left
     repeat' split
     all_goals omega)

end

/-! ### Claims C7, C8, C9 -/

/-- C7 (amended): a box whose computed size is smaller than its header size,
or which extends past the enclosing `[start, end)` range, is a hard parse
error; a hard error in a container's children propagates upward, and the
whole parse of the enclosing range fails with it (already-parsed sibling
boxes are not retained). -/
theorem box_size_validation_hard_error
    (file : List Nat) (co eo depth bs hs : Nat) (e : String)
    (hin : co < eo)
    (hread : co + 8 ≤ file.length)
    (hsz : read_box_size file co eo = .ok (bs, hs)) :
    (bs < hs →
      parse_boxes_loop file co eo depth = .error "Invalid box size (smaller than header)") ∧
    (hs ≤ bs → eo < co + bs →
      parse_boxes_loop file co eo depth = .error "Box extends beyond parent") ∧
    (depth ≤ 20 → parse_boxes file co eo depth = parse_boxes_loop file co eo depth) ∧
    (hs ≤ bs → co + bs ≤ eo →
      is_container_type (box_type_to_string (slice file (co + 4) (co + 8))) = true →
      box_type_to_string (slice file (co + 4) (co + 8)) ≠ ascii "meta" →
      box_type_to_string (slice file (co + 4) (co + 8)) ≠ ascii "dref" →
      parse_boxes file (co + hs) (co + bs) (depth + 1) = .error e →
      parse_boxes_loop file co eo depth = .error e) := by
  refine ⟨?_, ?_, ?_, ?_⟩
  · intro hlt
    rw [parse_boxes_loop.eq_def, dif_pos hin, dif_neg (by omega)]
    split
    next e' heq => rw [hsz] at heq; cases heq
    next bs' hs' heq =>
      rw [hsz] at heq
      cases heq
      rw [dif_pos hlt]
  · intro hge hover
    rw [parse_boxes_loop.eq_def, dif_pos hin, dif_neg (by omega)]
    split
    next e' heq => rw [hsz] at heq; cases heq
    next bs' hs' heq =>
      rw [hsz] at heq
      cases heq
      rw [dif_neg (by omega), dif_pos hover]
  · intro hd
    rw [parse_boxes.eq_def, if_neg (by omega)]
  · intro hge hfit hcont hnm hnd hchild
    rw [parse_boxes_loop.eq_def, dif_pos hin, dif_neg (by omega)]
    split
    next e' heq => rw [hsz] at heq; cases heq
    next bs' hs' heq =>
      rw [hsz] at heq
      cases heq
      rw [dif_neg (by omega), dif_neg (by omega)]
      rw [if_pos hcont]
      simp only [hnm, hnd, false_and, if_false, hchild]

/-- Witness for C7: a box declaring size 4 (Scenario E), a box overrunning
its parent range, and a `moov` whose child declares size 4 (the child's
error propagates and fails the whole parse). -/
theorem box_size_validation_hard_error_witness :
    parse_boxes ([0, 0, 0, 4] ++ ascii "free") 0 8 0 =
      .error "Invalid box size (smaller than header)" ∧
    parse_boxes ([0, 0, 2, 0] ++ ascii "free") 0 8 0 =
      .error "Box extends beyond parent" ∧
    parse_boxes ([0, 0, 0, 16] ++ ascii "moov" ++ [0, 0, 0, 4] ++ ascii "free") 0 16 0 =
      .error "Invalid box size (smaller than header)" := by
  have h1 := box_size_validation_hard_error ([0, 0, 0, 4] ++ ascii "free") 0 8 0 4 8 ""
    (by decide) (by decide) (by rfl)
  have h2 := box_size_validation_hard_error ([0, 0, 2, 0] ++ ascii "free") 0 8 0 512 8 ""
    (by decide) (by decide) (by rfl)
  have h3i := box_size_validation_hard_error
    ([0, 0, 0, 16] ++ ascii "moov" ++ [0, 0, 0, 4] ++ ascii "free") 8 16 1 4 8 ""
    (by decide) (by decide) (by rfl)
  have h3o := box_size_validation_hard_error
    ([0, 0, 0, 16] ++ ascii "moov" ++ [0, 0, 0, 4] ++ ascii "free") 0 16 0 16 8
    "Invalid box size (smaller than header)" (by decide) (by decide) (by rfl)
  refine ⟨?_, ?_, ?_⟩
  · rw [h1.2.2.1 (by decide), h1.1 (by decide)]
  · rw [h2.2.2.1 (by decide), h2.2.1 (by decide) (by decide)]
  · have hchild : parse_boxes
        ([0, 0, 0, 16] ++ ascii "moov" ++ [0, 0, 0, 4] ++ ascii "free") 8 16 1 =
        .error "Invalid box size (smaller than header)" := by
      rw [h3i.2.2.1 (by decide), h3i.1 (by decide)]
    rw [h3o.2.2.1 (by decide),
      h3o.2.2.2 (by decide) (by decide) (by decide) (by decide) (by decide) hchild]

unseal parse_boxes parse_boxes_loop in
/-- C7 counterexample: the claim says siblings already parsed at the same
level are retained when a box fails validation; in the code the error
aborts the whole `parse_boxes` call, so a valid `free` box followed by a
size-4 box yields only the error, while the valid box alone parses to a
one-box list. -/
theorem sibling_boxes_not_retained_counterexample :
    parse_boxes ([0, 0, 0, 8] ++ ascii "free" ++ [0, 0, 0, 4] ++ ascii "free") 0 16 0 =
      .error "Invalid box size (smaller than header)" ∧
    (parse_boxes ([0, 0, 0, 8] ++ ascii "free") 0 8 0).map List.length = .ok 1 := by
  constructor <;> rfl

/-- A file of `n` nested empty `moov` container boxes (test input for the
recursion-depth bound). -/
def nestedMoov : Nat → List Nat
  | 0 => []
  | n + 1 => [0, 0, 0, 8 * (n + 1)] ++ ascii "moov" ++ nestedMoov n

unseal parse_boxes parse_boxes_loop in
set_option maxRecDepth 4000 in
/-- C8: `parse_boxes` is a total function (the recursion is well-founded on
the byte range), any call at depth above 20 is the maximum-depth hard
error, 20 nested containers parse successfully, and 21 nested containers
hit the depth error (raised while parsing the 21st container's contents). -/
theorem box_nesting_depth_limit (file : List Nat) (so eo depth : Nat) (h : 20 < depth) :
    parse_boxes file so eo depth = .error "Maximum box nesting depth exceeded" ∧
    (parse_boxes (nestedMoov 20) 0 (nestedMoov 20).length 0).isOk = true ∧
    parse_boxes (nestedMoov 21) 0 (nestedMoov 21).length 0 =
      .error "Maximum box nesting depth exceeded" := by
  refine ⟨?_, by rfl, by rfl⟩
  rw [parse_boxes.eq_def, if_pos h]

/-- Witness for C8 at depth 21. -/
theorem box_nesting_depth_limit_witness :
    parse_boxes [] 0 0 21 = .error "Maximum box nesting depth exceeded" ∧
    (parse_boxes (nestedMoov 20) 0 (nestedMoov 20).length 0).isOk = true ∧
    parse_boxes (nestedMoov 21) 0 (nestedMoov 21).length 0 =
      .error "Maximum box nesting depth exceeded" :=
  box_nesting_depth_limit [] 0 0 21 (by decide)

private lemma be32_and_255 (t1 t2 t3 : Nat) (h : t3 < 256) :
    be32 0 t1 t2 t3 &&& 0xFF = t3 := by
  have hm := Nat.and_pow_two_sub_one_eq_mod (be32 0 t1 t2 t3) 8
  simp only [show (2 : Nat) ^ 8 - 1 = 0xFF from rfl] at hm
  rw [hm]
  simp only [be32]
  omega

unseal parse_boxes parse_boxes_loop utf8_lossy in
/-- C9: the iTunes `data` payload is 1 version byte, a 3-byte type tag whose
low byte selects the interpretation per the fixed table, and 4 reserved
bytes before the content; a UTF-8 tag decodes the content as text
regardless of the version and reserved bytes; `trkn` and `disk` decode
both the implicit and the unsigned-int tags as a 3×16-bit tuple; the
`moov > udta > ©nam > data` chain of Scenario D attaches
`ItunesMetadata { Utf8, Text "Title" }` to the `©nam` box; and an
iTunes decode failure leaves the metadata absent without failing the box
parse. -/
theorem itunes_data_box_decoding
    (bt payload : List Nat) (v t1 t2 t3 r0 r1 r2 r3 : Nat)
    (h3 : t3 < 256) (hp : 6 ≤ payload.length) :
    (ItunesDataType.from_flags (be32 0 t1 t2 t3) =
      (if t3 = 0x00 then .implicit else if t3 = 0x01 then .utf8
        else if t3 = 0x02 then .utf16Be else if t3 = 0x0D then .jpeg
        else if t3 = 0x0E then .png else if t3 = 0x15 then .signedInt
        else if t3 = 0x16 then .unsignedInt else .binary t3)) ∧
    (ItunesMetadata.parse bt (v :: t1 :: t2 :: 0x01 :: r0 :: r1 :: r2 :: r3 :: payload) =
      .ok ⟨.utf8, .text (utf8_lossy payload)⟩) ∧
    (ItunesMetadata.parse (ascii "trkn")
        (v :: t1 :: t2 :: 0x00 :: r0 :: r1 :: r2 :: r3 :: payload) =
      .ok ⟨.implicit, .trackNumber (be16 (byteAt payload 2) (byteAt payload 3))
        (be16 (byteAt payload 4) (byteAt payload 5))⟩) ∧
    (ItunesMetadata.parse (ascii "trkn")
        (v :: t1 :: t2 :: 0x16 :: r0 :: r1 :: r2 :: r3 :: payload) =
      .ok ⟨.unsignedInt, .trackNumber (be16 (byteAt payload 2) (byteAt payload 3))
        (be16 (byteAt payload 4) (byteAt payload 5))⟩) ∧
    (ItunesMetadata.parse (ascii "disk")
        (v :: t1 :: t2 :: 0x00 :: r0 :: r1 :: r2 :: r3 :: payload) =
      .ok ⟨.implicit, .diskNumber (be16 (byteAt payload 2) (byteAt payload 3))
        (be16 (byteAt payload 4) (byteAt payload 5))⟩) ∧
    (ItunesMetadata.parse (ascii "disk")
        (v :: t1 :: t2 :: 0x16 :: r0 :: r1 :: r2 :: r3 :: payload) =
      .ok ⟨.unsignedInt, .diskNumber (be16 (byteAt payload 2) (byteAt payload 3))
        (be16 (byteAt payload 4) (byteAt payload 5))⟩) ∧
    (parse_boxes
        ([0, 0, 0, 45] ++ ascii "moov" ++ [0, 0, 0, 37] ++ ascii "udta" ++
          [0, 0, 0, 29] ++ ascii "©nam" ++ [0, 0, 0, 21] ++ ascii "data" ++
          [0, 0, 0, 1, 0, 0, 0, 0] ++ ascii "Title") 0 45 0 =
      .ok [IsobmffBox.mk 0 (ascii "moov") 45 8 true
        [IsobmffBox.mk 8 (ascii "udta") 37 8 true
          [IsobmffBox.mk 16 (ascii "©nam") 29 8 true
            [IsobmffBox.mk 24 (ascii "data") 21 8 false []
              ([0, 0, 0, 1, 0, 0, 0, 0] ++ ascii "Title") none none]
            [] none
            (some (ItunesMetadata.mk .utf8 (.text (ascii "Title"))))]
          [] none none]
        [] none none]) ∧
    (ItunesMetadata.parse (ascii "©nam") [0] = .error "iTunes data box too short" ∧
      parse_boxes ([0, 0, 0, 17] ++ ascii "©nam" ++ [0, 0, 0, 9] ++ ascii "data" ++ [0])
          0 17 0 =
        .ok [IsobmffBox.mk 0 (ascii "©nam") 17 8 true
          [IsobmffBox.mk 8 (ascii "data") 9 8 false [] [0] none none]
          [] none none]) := by
  have hdt : ∀ tb : Nat, tb < 256 → ∀ u1 u2 : Nat,
      ItunesDataType.from_flags (be32 0 u1 u2 tb) =
        (if tb = 0x00 then .implicit else if tb = 0x01 then .utf8
          else if tb = 0x02 then .utf16Be else if tb = 0x0D then .jpeg
          else if tb = 0x0E then .png else if tb = 0x15 then .signedInt
          else if tb = 0x16 then .unsignedInt else .binary tb) := by
    intro tb htb u1 u2
    unfold ItunesDataType.from_flags
    rw [be32_and_255 u1 u2 tb htb]
    split <;> simp_all
  have hffI : ItunesDataType.from_flags (be32 0 t1 t2 0x00) = .implicit := by
    unfold ItunesDataType.from_flags
    rw [be32_and_255 t1 t2 0x00 (by omega)]
  have hffU : ItunesDataType.from_flags (be32 0 t1 t2 0x01) = .utf8 := by
    unfold ItunesDataType.from_flags
    rw [be32_and_255 t1 t2 0x01 (by omega)]
  have hffN : ItunesDataType.from_flags (be32 0 t1 t2 0x16) = .unsignedInt := by
    unfold ItunesDataType.from_flags
    rw [be32_and_255 t1 t2 0x16 (by omega)]
  have L : ∀ τ : Nat, ∀ w : List Nat,
      ¬ ((v :: t1 :: t2 :: τ :: r0 :: r1 :: r2 :: r3 :: w).length < 8) := by
    intro τ w
    simp only [List.length_cons]
    omega
  refine ⟨hdt t3 h3 t1 t2, ?_, ?_, ?_, ?_, ?_, by rfl, by rfl, by rfl⟩
  · unfold ItunesMetadata.parse
    rw [if_neg (L 0x01 payload)]
    simp only [byteAt, List.getD, List.get?, Option.getD]
    rw [hffU]
    simp only [List.drop_succ_cons, List.drop_zero]
  · unfold ItunesMetadata.parse
    rw [if_neg (L 0x00 payload)]
    simp only [byteAt, List.getD, List.get?, Option.getD]
    rw [hffI]
    simp [hp]
  · unfold ItunesMetadata.parse
    rw [if_neg (L 0x16 payload)]
    simp only [byteAt, List.getD, List.get?, Option.getD]
    rw [hffN]
    simp [hp]
  · unfold ItunesMetadata.parse
    rw [if_neg (L 0x00 payload)]
    simp only [byteAt, List.getD, List.get?, Option.getD]
    rw [hffI]
    simp [hp, ascii]
  · unfold ItunesMetadata.parse
    rw [if_neg (L 0x16 payload)]
    simp only [byteAt, List.getD, List.get?, Option.getD]
    rw [hffN]
    simp [hp, ascii]

unseal utf8_lossy in
/-- Witness for C9 at concrete inputs (tag byte, track and disk tuples). -/
theorem itunes_data_box_decoding_witness :
    ItunesDataType.from_flags (be32 0 0 0 0x01) = .utf8 ∧
    ItunesMetadata.parse (ascii "©art") [0, 0, 0, 0x01, 0, 0, 0, 0, 0, 0, 0, 2, 0, 3] =
      .ok ⟨.utf8, .text [0, 0, 0, 2, 0, 3]⟩ ∧
    ItunesMetadata.parse (ascii "trkn") [0, 0, 0, 0x00, 0, 0, 0, 0, 0, 0, 0, 2, 0, 3] =
      .ok ⟨.implicit, .trackNumber 2 3⟩ ∧
    ItunesMetadata.parse (ascii "trkn") [0, 0, 0, 0x16, 0, 0, 0, 0, 0, 0, 0, 2, 0, 3] =
      .ok ⟨.unsignedInt, .trackNumber 2 3⟩ ∧
    ItunesMetadata.parse (ascii "disk") [0, 0, 0, 0x00, 0, 0, 0, 0, 0, 0, 0, 2, 0, 3] =
      .ok ⟨.implicit, .diskNumber 2 3⟩ ∧
    ItunesMetadata.parse (ascii "disk") [0, 0, 0, 0x16, 0, 0, 0, 0, 0, 0, 0, 2, 0, 3] =
      .ok ⟨.unsignedInt, .diskNumber 2 3⟩ := by
  have h := itunes_data_box_decoding (ascii "©art") [0, 0, 0, 2, 0, 3] 0 0 0 0x01 0 0 0 0
    (by decide) (by decide)
  exact ⟨h.1, h.2.1, h.2.2.1, h.2.2.2.1, h.2.2.2.2.1, h.2.2.2.2.2.1⟩

end TheDrill
